import Mathlib

/-!
Verification of the BizGenie chat assistant (anushkapunekar/bizgenie)
against its natural-language specification.

The development shallowly embeds the Python modules that the claims are
about:

* app/agents/nodes/rag.py      (keyword intent, datetime extraction, RAG answer)
* app/agents/nodes/appointment.py (appointment node)
* app/agents/graph.py          (tool_router: parse structured LLM output,
                                 dispatch notification tools)
* app/rag/vectorstore.py       (VectorStore.query_documents)
* app/tools/email_mcp.py, whatsapp_mcp.py, calendar_mcp.py (senders)
* app/routes/chat.py           (chat endpoint)
* app/config.py                (the Config settings class)

Python dynamic values are modelled by the inductive type PyVal; code that
can raise returns Except PyErr. Outbound side effects (SMTP, HTTP,
asyncio scheduling) are modelled as traces of call descriptors: the
functions return the trace next to the value instead of performing IO.
-/

set_option maxRecDepth 20000

namespace BizGenie

/-- Python runtime errors that the embedded code can raise. -/
inductive PyErr where
  | typeError (msg : String)
  | attributeError (msg : String)
  | valueError (msg : String)
  | nameError (msg : String)
  | indexError
  | osError (msg : String)
  | httpException (status : Nat) (detail : String)
  deriving Repr, DecidableEq

/-- A Python value as it can appear in json payloads, business-context
dicts and tool parameters: None, bool, int, float (exact rational, with
the two special values nan and inf kept apart), str, list, dict. -/
inductive PyVal where
  | none
  | bool (b : Bool)
  | int (n : Int)
  | num (q : Rat)
  | nan
  | inf (neg : Bool)
  | str (s : String)
  | list (xs : List PyVal)
  | dict (kvs : List (String × PyVal))
  deriving Repr

/-- Python truthiness of a value (bool(v)). -/
def PyVal.truthy : PyVal → Bool
  | .none => false
  | .bool b => b
  | .int n => n != 0
  | .num q => q != 0
  | .nan => true
  | .inf _ => true
  | .str s => s != ""
  | .list xs => !xs.isEmpty
  | .dict kvs => !kvs.isEmpty

/-- Key lookup in an association list representing a Python dict.
Parsing and updates keep at most one entry per key, so the first match
is the binding. -/
def alistGet (kvs : List (String × PyVal)) (k : String) : Option PyVal :=
  match kvs.find? (fun kv => kv.1 == k) with
  | Option.none => Option.none
  | Option.some kv => Option.some kv.2

/-- Replace the binding of k if present, else append it (Python
d[k] = v, also used to de-duplicate keys while parsing json). -/
def alistSet (kvs : List (String × PyVal)) (k : String) (v : PyVal) :
    List (String × PyVal) :=
  match kvs with
  | [] => [(k, v)]
  | kv :: rest =>
      if kv.1 == k then (k, v) :: rest else kv :: alistSet rest k v

/-- Python d.get(k): None when the key is absent. -/
def PyVal.get (d : PyVal) (k : String) : PyVal :=
  match d with
  | .dict kvs =>
      match alistGet kvs k with
      | Option.none => .none
      | Option.some v => v
  | _ => .none

/-- Python d.get(k, default). -/
def PyVal.getD (d : PyVal) (k : String) (dflt : PyVal) : PyVal :=
  match d with
  | .dict kvs =>
      match alistGet kvs k with
      | Option.none => dflt
      | Option.some v => v
  | _ => dflt

/-- Python d.get(k) on a value that must be a dict: raises
AttributeError when the receiver is not a dict (as .get on a non-dict
does). -/
def PyVal.getE (d : PyVal) (k : String) : Except PyErr PyVal :=
  match d with
  | .dict _ => Except.ok (d.get k)
  | _ => Except.error (PyErr.attributeError "get")

/-- Python k in d (membership in the keys of a dict). -/
def PyVal.hasKey (d : PyVal) (k : String) : Bool :=
  match d with
  | .dict kvs => (alistGet kvs k).isSome
  | _ => false

/-- Python x or y: x when truthy, else y. -/
def pyOr (a b : PyVal) : PyVal :=
  if a.truthy then a else b

/-- Lowercase a string (Python str.lower; ASCII, which covers every
keyword the source compares against). -/
def pyLower (s : String) : String := String.mk (s.data.map Char.toLower)

/-- Whitespace as Python str.strip sees it. -/
def isPyWs (c : Char) : Bool :=
  c = ' ' || c = '\t' || c = '\n' || c = '\r' ||
  c = Char.ofNat 11 || c = Char.ofNat 12

/-- Python str.strip(). -/
def pyStrip (s : String) : String :=
  String.mk (((s.data.dropWhile isPyWs).reverse.dropWhile isPyWs).reverse)

/-- Python s[:n]. -/
def pyTake (s : String) (n : Nat) : String := String.mk (s.data.take n)

/-- Split a character list at every occurrence of a separator
character (Python str.split for a one-character separator). -/
def splitOnChar (c : Char) : List Char → List (List Char)
  | [] => [[]]
  | x :: rest =>
      let r := splitOnChar c rest
      if x = c then [] :: r
      else
        match r with
        | [] => [[x]]
        | h :: t => (x :: h) :: t

/-- Containment of one character list in another at any position. -/
def listInfix (n : List Char) : List Char → Bool
  | [] => n.isEmpty
  | c :: rest => n.isPrefixOf (c :: rest) || listInfix n rest

/-- Python substring containment: needle in haystack. -/
def strIn (needle haystack : String) : Bool :=
  listInfix needle.data haystack.data

/-- Python any(k in text for k in keywords). -/
def containsAny (keywords : List String) (text : String) : Bool :=
  keywords.any (fun k => strIn k text)

/-- Python str.capitalize: first character upper-cased, rest
lower-cased. -/
def pyCapitalize (s : String) : String :=
  match s.data with
  | [] => ""
  | c :: rest => String.mk (c.toUpper :: rest.map Char.toLower)

/-- Python sep.join(parts). -/
def pyJoin (sep : String) : List String → String
  | [] => ""
  | x :: rest => rest.foldl (fun acc y => acc ++ sep ++ y) x

/-! ### json.dumps

Model of Python json.dumps with its default arguments: separators
", " and ": ", ensure_ascii=True (every non-ASCII character becomes a
\uXXXX escape, astral characters a surrogate pair). -/

/-- Lowercase hexadecimal digit. -/
def hexDigit (n : Nat) : Char :=
  if n < 10 then Char.ofNat (48 + n) else Char.ofNat (87 + n)

/-- Four-digit lowercase hexadecimal rendering of a code unit. -/
def toHex4 (n : Nat) : String :=
  String.mk [hexDigit (n / 4096 % 16), hexDigit (n / 256 % 16),
             hexDigit (n / 16 % 16), hexDigit (n % 16)]

/-- Escape one character the way json.dumps (ensure_ascii=True) does. -/
def jsonEscapeChar (c : Char) : String :=
  if c = '"' then "\\\""
  else if c = '\\' then "\\\\"
  else if c = '\n' then "\\n"
  else if c = '\r' then "\\r"
  else if c = '\t' then "\\t"
  else if c = Char.ofNat 8 then "\\b"
  else if c = Char.ofNat 12 then "\\f"
  else if c.toNat < 32 then "\\u" ++ toHex4 c.toNat
  else if c.toNat < 127 then String.mk [c]
  else if c.toNat < 65536 then "\\u" ++ toHex4 c.toNat
  else
    "\\u" ++ toHex4 (55296 + (c.toNat - 65536) / 1024) ++
    "\\u" ++ toHex4 (56320 + (c.toNat - 65536) % 1024)

/-- json string literal for s, quotes included. -/
def jsonQuote (s : String) : String :=
  "\"" ++ String.join (s.data.map jsonEscapeChar) ++ "\""

/-- Decimal digits of a natural number left-padded with zeros to
width w. -/
def padDigits (n w : Nat) : String :=
  let s := toString n
  String.mk (List.replicate (w - s.length) '0') ++ s

/-- Decimal rendering of a json number value (only exercised on the
decimal float fields of payloads; nothing in the claims depends on
it). -/
def jsonNum (q : Rat) : String :=
  if q.den = 1 then toString q.num
  else
    match (List.range 31).find? (fun k => 10 ^ k % q.den = 0) with
    | Option.some k =>
        let scaled := (q.num.natAbs * (10 ^ k / q.den))
        (if q.num < 0 then "-" else "") ++
        toString (scaled / 10 ^ k) ++ "." ++ padDigits (scaled % 10 ^ k) k
    | Option.none => toString q.num ++ "/" ++ toString q.den

mutual

/-- json.dumps of a value (compact default separators). -/
def jsonDumps : PyVal → String
  | .none => "null"
  | .bool true => "true"
  | .bool false => "false"
  | .int n => toString n
  | .num q => jsonNum q
  | .nan => "NaN"
  | .inf false => "Infinity"
  | .inf true => "-Infinity"
  | .str s => jsonQuote s
  | .list xs => "[" ++ jsonDumpsList xs ++ "]"
  | .dict kvs => "\x7b" ++ jsonDumpsKVs kvs ++ "\x7d"

/-- Comma-joined dump of array elements. -/
def jsonDumpsList : List PyVal → String
  | [] => ""
  | [x] => jsonDumps x
  | x :: y :: rest => jsonDumps x ++ ", " ++ jsonDumpsList (y :: rest)

/-- Comma-joined dump of object members. -/
def jsonDumpsKVs : List (String × PyVal) → String
  | [] => ""
  | [kv] => jsonQuote kv.1 ++ ": " ++ jsonDumps kv.2
  | kv :: kv2 :: rest =>
      jsonQuote kv.1 ++ ": " ++ jsonDumps kv.2 ++ ", " ++
      jsonDumpsKVs (kv2 :: rest)

end

/-- Spaces used by the indent=2 mode of json.dumps. -/
def jsonSpaces (n : Nat) : String := String.mk (List.replicate n ' ')

mutual

/-- json.dumps with indent=2 (used only to build the LLM prompt);
ind is the current indentation of the enclosing container. -/
def jsonDumpsInd (ind : Nat) : PyVal → String
  | .list [] => "[]"
  | .list (x :: xs) =>
      "[\n" ++ jsonDumpsIndList (ind + 2) (x :: xs) ++ "\n" ++
      jsonSpaces ind ++ "]"
  | .dict [] => "\x7b\x7d"
  | .dict (kv :: kvs) =>
      "\x7b\n" ++ jsonDumpsIndKVs (ind + 2) (kv :: kvs) ++ "\n" ++
      jsonSpaces ind ++ "\x7d"
  | v => jsonDumps v

/-- Indented array elements, one per line. -/
def jsonDumpsIndList (ind : Nat) : List PyVal → String
  | [] => ""
  | [x] => jsonSpaces ind ++ jsonDumpsInd ind x
  | x :: y :: rest =>
      jsonSpaces ind ++ jsonDumpsInd ind x ++ ",\n" ++
      jsonDumpsIndList ind (y :: rest)

/-- Indented object members, one per line. -/
def jsonDumpsIndKVs (ind : Nat) : List (String × PyVal) → String
  | [] => ""
  | [kv] => jsonSpaces ind ++ jsonQuote kv.1 ++ ": " ++ jsonDumpsInd ind kv.2
  | kv :: kv2 :: rest =>
      jsonSpaces ind ++ jsonQuote kv.1 ++ ": " ++ jsonDumpsInd ind kv.2 ++
      ",\n" ++ jsonDumpsIndKVs ind (kv2 :: rest)

end

/-! ### json.loads

A model of Python json.loads: whitespace-tolerant, strict about control
characters in strings, accepting the non-standard literals NaN,
Infinity and -Infinity that the Python parser accepts, requiring the
whole input to be consumed. Duplicate object keys keep the last
binding. Lone surrogate escapes, which Python keeps as surrogate code
units, are outside the model and decode to the null character. -/

/-- json whitespace. -/
def isJsonWs (c : Char) : Bool :=
  c = ' ' || c = '\t' || c = '\n' || c = '\r'

/-- Drop leading json whitespace. -/
def skipWs : List Char → List Char
  | [] => []
  | c :: rest => if isJsonWs c then skipWs rest else c :: rest

/-- Hexadecimal digit value, if any. -/
def hexVal (c : Char) : Option Nat :=
  if '0' ≤ c ∧ c ≤ '9' then Option.some (c.toNat - 48)
  else if 'a' ≤ c ∧ c ≤ 'f' then Option.some (c.toNat - 87)
  else if 'A' ≤ c ∧ c ≤ 'F' then Option.some (c.toNat - 55)
  else Option.none

/-- Parse the body of a json string literal (after the opening quote),
returning the decoded string and the rest of the input. -/
def jParseStr : (fuel : Nat) → List Char → Except String (String × List Char)
  | 0, _ => Except.error "depth"
  | _, [] => Except.error "unterminated string"
  | Nat.succ fuel, c :: rest =>
      if c = '"' then Except.ok ("", rest)
      else if c = '\\' then
        match rest with
        | [] => Except.error "bad escape"
        | e :: rest2 =>
            let conts := fun (ch : Char) (rem : List Char) =>
              match jParseStr fuel rem with
              | Except.ok (s, rem2) => Except.ok (String.mk [ch] ++ s, rem2)
              | Except.error m => Except.error m
            if e = '"' then conts '"' rest2
            else if e = '\\' then conts '\\' rest2
            else if e = '/' then conts '/' rest2
            else if e = 'b' then conts (Char.ofNat 8) rest2
            else if e = 'f' then conts (Char.ofNat 12) rest2
            else if e = 'n' then conts '\n' rest2
            else if e = 'r' then conts '\r' rest2
            else if e = 't' then conts '\t' rest2
            else if e = 'u' then
              match rest2 with
              | h1 :: h2 :: h3 :: h4 :: rest3 =>
                  match hexVal h1, hexVal h2, hexVal h3, hexVal h4 with
                  | Option.some a, Option.some b, Option.some c2,
                    Option.some d =>
                      let n := a * 4096 + b * 256 + c2 * 16 + d
                      if 55296 ≤ n ∧ n ≤ 56319 then
                        match rest3 with
                        | '\\' :: 'u' :: g1 :: g2 :: g3 :: g4 :: rest4 =>
                            match hexVal g1, hexVal g2, hexVal g3,
                              hexVal g4 with
                            | Option.some a2, Option.some b2,
                              Option.some c3, Option.some d2 =>
                                let m :=
                                  a2 * 4096 + b2 * 256 + c3 * 16 + d2
                                if 56320 ≤ m ∧ m ≤ 57343 then
                                  conts
                                    (Char.ofNat
                                      (65536 + (n - 55296) * 1024 +
                                        (m - 56320)))
                                    rest4
                                else conts (Char.ofNat n) rest3
                            | _, _, _, _ => conts (Char.ofNat n) rest3
                        | _ => conts (Char.ofNat n) rest3
                      else conts (Char.ofNat n) rest3
                  | _, _, _, _ => Except.error "bad unicode escape"
              | _ => Except.error "bad unicode escape"
            else Except.error "bad escape"
      else if c.toNat < 32 then Except.error "control character"
      else
        match jParseStr fuel rest with
        | Except.ok (s, rem2) => Except.ok (String.mk [c] ++ s, rem2)
        | Except.error m => Except.error m

/-- Digit run: value, count of digits, rest. -/
def jDigits : List Char → Nat × Nat × List Char
  | [] => (0, 0, [])
  | c :: rest =>
      if c.isDigit then
        let (v, k, rem) := jDigits rest
        ((c.toNat - 48) * 10 ^ k + v, k + 1, rem)
      else (0, 0, c :: rest)

/-- Parse a json number starting at the input (first character is a
digit or a minus sign); integer syntax yields an int, otherwise an
exact rational stands in for the Python float. -/
def jParseNum (cs : List Char) : Except String (PyVal × List Char) :=
  let (neg, cs1) :=
    match cs with
    | '-' :: rest => (true, rest)
    | _ => (false, cs)
  match cs1 with
  | [] => Except.error "bad number"
  | c :: _ =>
      if ¬ c.isDigit then Except.error "bad number"
      else if c == '0' && (match cs1 with
        | _ :: d :: _ => d.isDigit
        | _ => false) then Except.error "leading zero"
      else
        let (ip, _, cs2) := jDigits cs1
        let (hasFrac, fv, fk, cs3) :=
          match cs2 with
          | '.' :: rest =>
              match rest with
              | d :: _ =>
                  if d.isDigit then
                    let (v, k, rem) := jDigits rest
                    (true, v, k, rem)
                  else (false, 0, 0, '.' :: rest)
              | [] => (false, 0, 0, '.' :: rest)
          | _ => (false, 0, 0, cs2)
        if (match cs3 with
          | '.' :: _ => true
          | _ => false) then Except.error "bad fraction"
        else
          let expParse : List Char → Option (Int × List Char) :=
            fun l =>
              match l with
              | e :: rest =>
                  if e = 'e' ∨ e = 'E' then
                    let (eneg, rest2) :=
                      match rest with
                      | '+' :: r => (false, r)
                      | '-' :: r => (true, r)
                      | r => (false, r)
                    match rest2 with
                    | d :: _ =>
                        if d.isDigit then
                          let (v, _, rem) := jDigits rest2
                          Option.some
                            (if eneg then -(v : Int) else (v : Int), rem)
                        else Option.none
                    | [] => Option.none
                  else Option.some (0, l)
              | [] => Option.some (0, l)
          match expParse cs3 with
          | Option.none => Except.error "bad exponent"
          | Option.some (ex, cs4) =>
              let hasExp := cs4 ≠ cs3
              if ¬ hasFrac ∧ ¬ hasExp then
                Except.ok
                  (PyVal.int (if neg then -(ip : Int) else (ip : Int)), cs4)
              else
                let mant : Int :=
                  (if neg then -1 else 1) * ((ip : Int) * 10 ^ fk + (fv : Int))
                let base : Rat := (mant : Rat) / ((10 : Rat) ^ fk)
                let value : Rat :=
                  if 0 ≤ ex then base * (10 : Rat) ^ ex.toNat
                  else base / (10 : Rat) ^ (-ex).toNat
                Except.ok (PyVal.num value, cs4)

mutual

/-- Parse one json value from the input. -/
def jParseVal : (fuel : Nat) → List Char → Except String (PyVal × List Char)
  | 0, _ => Except.error "depth"
  | Nat.succ fuel, cs =>
      match skipWs cs with
      | [] => Except.error "empty"
      | c :: rest =>
          if c = 'n' then
            match rest with
            | 'u' :: 'l' :: 'l' :: rem => Except.ok (PyVal.none, rem)
            | _ => Except.error "bad literal"
          else if c = 't' then
            match rest with
            | 'r' :: 'u' :: 'e' :: rem => Except.ok (PyVal.bool true, rem)
            | _ => Except.error "bad literal"
          else if c = 'f' then
            match rest with
            | 'a' :: 'l' :: 's' :: 'e' :: rem =>
                Except.ok (PyVal.bool false, rem)
            | _ => Except.error "bad literal"
          else if c = 'N' then
            match rest with
            | 'a' :: 'N' :: rem => Except.ok (PyVal.nan, rem)
            | _ => Except.error "bad literal"
          else if c = 'I' then
            match rest with
            | 'n' :: 'f' :: 'i' :: 'n' :: 'i' :: 't' :: 'y' :: rem =>
                Except.ok (PyVal.inf false, rem)
            | _ => Except.error "bad literal"
          else if c == '-' && (match rest with
            | 'I' :: _ => true
            | _ => false) then
            match rest with
            | 'I' :: 'n' :: 'f' :: 'i' :: 'n' :: 'i' :: 't' :: 'y' :: rem =>
                Except.ok (PyVal.inf true, rem)
            | _ => Except.error "bad literal"
          else if c = '"' then
            match jParseStr fuel rest with
            | Except.ok (s, rem) => Except.ok (PyVal.str s, rem)
            | Except.error m => Except.error m
          else if c = '\x7b' then jParseObj fuel [] rest
          else if c = '[' then jParseArr fuel [] rest
          else if c = '-' ∨ c.isDigit then jParseNum (c :: rest)
          else Except.error "unexpected character"

/-- Parse the members of a json object (after the opening brace or a
comma), accumulating bindings with last-key-wins. -/
def jParseObj : (fuel : Nat) → List (String × PyVal) → List Char →
    Except String (PyVal × List Char)
  | 0, _, _ => Except.error "depth"
  | Nat.succ fuel, acc, cs =>
      match skipWs cs with
      | [] => Except.error "unterminated object"
      | c :: rest =>
          if c = '\x7d' ∧ acc.isEmpty then Except.ok (PyVal.dict [], rest)
          else if c = '"' then
            match jParseStr fuel rest with
            | Except.error m => Except.error m
            | Except.ok (k, rem) =>
                match skipWs rem with
                | ':' :: rem2 =>
                    match jParseVal fuel rem2 with
                    | Except.error m => Except.error m
                    | Except.ok (v, rem3) =>
                        match skipWs rem3 with
                        | ',' :: rem4 =>
                            jParseObj fuel (alistSet acc k v) rem4
                        | '\x7d' :: rem4 =>
                            Except.ok (PyVal.dict (alistSet acc k v), rem4)
                        | _ => Except.error "expected comma or brace"
                | _ => Except.error "expected colon"
          else Except.error "expected key"

/-- Parse the elements of a json array (after the opening bracket or a
comma). -/
def jParseArr : (fuel : Nat) → List PyVal → List Char →
    Except String (PyVal × List Char)
  | 0, _, _ => Except.error "depth"
  | Nat.succ fuel, acc, cs =>
      match skipWs cs with
      | [] => Except.error "unterminated array"
      | c :: rest =>
          if c = ']' ∧ acc.isEmpty then Except.ok (PyVal.list [], rest)
          else
            match jParseVal fuel (c :: rest) with
            | Except.error m => Except.error m
            | Except.ok (v, rem) =>
                match skipWs rem with
                | ',' :: rem2 => jParseArr fuel (acc ++ [v]) rem2
                | ']' :: rem2 => Except.ok (PyVal.list (acc ++ [v]), rem2)
                | _ => Except.error "expected comma or bracket"

end

/-- Model of json.loads: parse the whole input as one json document. -/
def jsonLoads (s : String) : Except String PyVal :=
  match jParseVal (2 * s.length + 8) s.data with
  | Except.error m => Except.error m
  | Except.ok (v, rest) =>
      match skipWs rest with
      | [] => Except.ok v
      | _ => Except.error "trailing data"

/-- The single-quote character, used by the Python repr of strings. -/
def sq : String := String.mk [Char.ofNat 39]

mutual

/-- Python repr of a value (string escaping inside repr is elided; the
claims never depend on it). -/
def pyRepr : PyVal → String
  | .none => "None"
  | .bool true => "True"
  | .bool false => "False"
  | .int n => toString n
  | .num q => jsonNum q
  | .nan => "nan"
  | .inf false => "inf"
  | .inf true => "-inf"
  | .str s => sq ++ s ++ sq
  | .list xs => "[" ++ pyReprList xs ++ "]"
  | .dict kvs => "\x7b" ++ pyReprKVs kvs ++ "\x7d"

/-- Comma-joined reprs of list elements. -/
def pyReprList : List PyVal → String
  | [] => ""
  | [x] => pyRepr x
  | x :: y :: rest => pyRepr x ++ ", " ++ pyReprList (y :: rest)

/-- Comma-joined reprs of dict items. -/
def pyReprKVs : List (String × PyVal) → String
  | [] => ""
  | [kv] => sq ++ kv.1 ++ sq ++ ": " ++ pyRepr kv.2
  | kv :: kv2 :: rest =>
      sq ++ kv.1 ++ sq ++ ": " ++ pyRepr kv.2 ++ ", " ++ pyReprKVs (kv2 :: rest)

end

/-- Python str() of a value, as interpolated by f-strings. -/
def pyStr : PyVal → String
  | .str s => s
  | v => pyRepr v

/-! ## app/rag/vectorstore.py — VectorStore.query_documents

The store instance is modelled by VSState: which backend mode the
constructor selected, the outcome of the external chroma call, whether
an embedding model is loaded, the outcome of embedding the query, and
the content of the per-business simple-store file. The numpy cosine
similarity is abstracted by the sim field (its floating-point value
never matters to the claims, only the ranking it induces). -/

/-- A retrieved document: the dicts returned by query_documents. -/
structure RDoc where
  text : String
  metadata : PyVal
  distance : Option Rat
  deriving Repr

/-- Raw result of collection.query in chroma mode: the first row of
documents, metadatas and distances. -/
structure ChromaRaw where
  docs : List String
  metas : List PyVal
  dists : List (Option Rat)
  deriving Repr

/-- One entry of the simple-store file, exactly the shape that
_add_documents_simple writes. -/
structure SEntry where
  id : String
  text : String
  metadata : PyVal
  embedding : Option (List Rat)
  deriving Repr

/-- State of the global VectorStore instance plus the outcomes of the
external calls a single query makes. -/
structure VSState where
  chromaMode : Bool
  chromaResult : Except String ChromaRaw
  hasEmbedModel : Bool
  queryEmbed : Option (List Rat)
  store : Except String (List SEntry)
  sim : List Rat → List Rat → Rat

/-- _load_simple_store: a missing, unreadable or non-list file yields
the empty entry list (the except branch). -/
def loadSimpleStore (st : Except String (List SEntry)) : List SEntry :=
  match st with
  | Except.error _ => []
  | Except.ok l => l

/-- Assembly loop of _query_chroma: metas[i] and dists[i] are indexed
only when the lists are non-empty, and a short list raises IndexError
(caught by the surrounding try). -/
def chromaAssemble (r : ChromaRaw) : Except PyErr (List RDoc) :=
  let rec go : Nat → List String → Except PyErr (List RDoc)
    | _, [] => Except.ok []
    | i, text :: rest =>
        let meta : Except PyErr PyVal :=
          if r.metas.isEmpty then Except.ok (PyVal.dict [])
          else match r.metas.get? i with
            | Option.some m => Except.ok m
            | Option.none => Except.error PyErr.indexError
        let dist : Except PyErr (Option Rat) :=
          if r.dists.isEmpty then Except.ok Option.none
          else match r.dists.get? i with
            | Option.some d => Except.ok d
            | Option.none => Except.error PyErr.indexError
        match meta, dist with
        | Except.ok m, Except.ok d =>
            match go (i + 1) rest with
            | Except.ok tl => Except.ok (⟨text, m, d⟩ :: tl)
            | Except.error e => Except.error e
        | Except.error e, _ => Except.error e
        | _, Except.error e => Except.error e
  go 0 r.docs

/-- _query_chroma: everything, including the external call and the
assembly, runs under one try/except that degrades to []. -/
def queryChroma (vs : VSState) : List RDoc :=
  match vs.chromaResult with
  | Except.error _ => []
  | Except.ok r =>
      match chromaAssemble r with
      | Except.error _ => []
      | Except.ok docs => docs

/-- Descending insertion by score (stands in for
np.argsort(similarities)[::-1]; tie order is unspecified in the source
as well). -/
def insertByScore (scores : List Rat) (i : Nat) : List Nat → List Nat
  | [] => [i]
  | j :: rest =>
      if scores.getD j 0 ≤ scores.getD i 0 then i :: j :: rest
      else j :: insertByScore scores i rest

/-- Indices of the scores sorted by descending score. -/
def argsortDesc (scores : List Rat) : List Nat :=
  (List.range scores.length).foldr (insertByScore scores) []

/-- Truthiness filter applied to stored embeddings:
[entry["embedding"] for entry in entries if entry.get("embedding")]. -/
def truthyEmbedding (e : SEntry) : Option (List Rat) :=
  match e.embedding with
  | Option.some l => if l.isEmpty then Option.none else Option.some l
  | Option.none => Option.none

/-- _query_simple: keyword fallback when no usable embeddings or no
model, empty result when embedding the query fails, otherwise
similarity ranking. The source reads texts[i] and metas[i] with indices
drawn from the filtered embedding list, which is never longer than the
entry list, so the reads are in bounds. -/
def querySimple (vs : VSState) (query : String) (n_results : Nat) :
    List RDoc :=
  let entries := loadSimpleStore vs.store
  if entries.isEmpty then []
  else
    let embList := entries.filterMap truthyEmbedding
    let texts := entries.map SEntry.text
    let metas := entries.map SEntry.metadata
    if embList.isEmpty || !vs.hasEmbedModel then
      let ql := pyLower query
      let results := (texts.zip metas).filterMap (fun tm =>
        if strIn ql (pyLower tm.1) then
          Option.some (⟨tm.1, tm.2, Option.none⟩ : RDoc)
        else Option.none)
      results.take n_results
    else
      match (if vs.hasEmbedModel then vs.queryEmbed else Option.none) with
      | Option.none => []
      | Option.some q =>
          let sims := embList.map (fun e => vs.sim e q)
          let top := (argsortDesc sims).take n_results
          top.map (fun i =>
            (⟨texts.getD i "", metas.getD i (PyVal.dict []),
              Option.some (1 - sims.getD i 0)⟩ : RDoc))

/-- VectorStore.query_documents. The Except result type records that
the body can in principle raise; every branch in fact returns. -/
def query_documents (vs : VSState) (business_id : Int) (query : String)
    (n_results : Nat := 5) : Except PyErr (List RDoc) :=
  let _ := business_id
  if vs.chromaMode then Except.ok (queryChroma vs)
  else Except.ok (querySimple vs query n_results)

/-! ## app/agents/nodes/rag.py -/

/-- BOOKING_KEYWORDS. -/
def BOOKING_KEYWORDS : List String :=
  ["book", "appointment", "schedule", "slot", "reserve",
   "reschedule", "cancel my appointment", "change my appointment",
   "confirm appointment", "book an appointment", "fix an appointment"]

/-- WHATSAPP_KEYWORDS. -/
def WHATSAPP_KEYWORDS : List String :=
  ["whatsapp", "send message", "text me", "send me a whatsapp", "whats app"]

/-- Match of the regex \d\x7b4\x7d-\d\x7b2\x7d-\d\x7b2\x7d at the head
of the input. -/
def dateAt : List Char → Option String
  | a :: b :: c :: d :: '-' :: e :: f :: '-' :: g :: h :: _ =>
      if a.isDigit && b.isDigit && c.isDigit && d.isDigit && e.isDigit &&
          f.isDigit && g.isDigit && h.isDigit then
        Option.some (String.mk [a, b, c, d, '-', e, f, '-', g, h])
      else Option.none
  | _ => Option.none

/-- Match of the regex \d\x7b2\x7d:\d\x7b2\x7d at the head of the
input. -/
def timeAt : List Char → Option String
  | a :: b :: ':' :: c :: d :: _ =>
      if a.isDigit && b.isDigit && c.isDigit && d.isDigit then
        Option.some (String.mk [a, b, ':', c, d])
      else Option.none
  | _ => Option.none

/-- Leftmost match, as re.search finds it. -/
def scanFirst (f : List Char → Option String) : List Char → Option String
  | [] => Option.none
  | c :: rest =>
      match f (c :: rest) with
      | Option.some r => Option.some r
      | Option.none => scanFirst f rest

/-- extract_datetime: leftmost YYYY-MM-DD and HH:MM matches. -/
def extract_datetime (user_message : String) :
    Option String × Option String :=
  (scanFirst dateAt user_message.data, scanFirst timeAt user_message.data)

/-- user_wants_tool. -/
def user_wants_tool (user_message : String) : Bool :=
  containsAny BOOKING_KEYWORDS (pyLower user_message) ||
  containsAny WHATSAPP_KEYWORDS (pyLower user_message)

/-- _format_documents; the enumerate index counts skipped documents
too, exactly as in the source. -/
def formatDocuments (documents : List RDoc) : String :=
  let numbered := (List.range documents.length).zip documents
  let out := numbered.filterMap (fun idoc =>
    let body := pyStrip idoc.2.text
    if body = "" then Option.none
    else
      let meta := pyOr idoc.2.metadata (PyVal.dict [])
      let src := pyOr (meta.get "filename")
        (pyOr (meta.get "source") (PyVal.str "Document"))
      Option.some ("[" ++ toString (idoc.1 + 1) ++ "] From " ++ pyStr src ++
        ":\n" ++ body))
  pyJoin "\n\n" out

/-- ", ".join(xs): every element must be a str, otherwise Python raises
TypeError. -/
def joinServices : List PyVal → Except PyErr String
  | [] => Except.ok ""
  | [PyVal.str s] => Except.ok s
  | PyVal.str s :: y :: rest =>
      match joinServices (y :: rest) with
      | Except.ok tl => Except.ok (s ++ ", " ++ tl)
      | Except.error e => Except.error e
  | _ => Except.error (PyErr.typeError "sequence item: expected str instance")

/-- The working-hours loop of _fallback_from_metadata: h and
h.get("open") and h.get("close") short-circuits, .get on a truthy
non-dict raises AttributeError. -/
def hoursLines : List (String × PyVal) → Except PyErr (List String)
  | [] => Except.ok []
  | (d, h) :: rest =>
      let keep : Except PyErr Bool :=
        if ¬ h.truthy then Except.ok false
        else match h with
          | PyVal.dict _ =>
              Except.ok ((h.get "open").truthy && (h.get "close").truthy)
          | _ => Except.error (PyErr.attributeError "get")
      match keep with
      | Except.error e => Except.error e
      | Except.ok b =>
          match hoursLines rest with
          | Except.error e => Except.error e
          | Except.ok tl =>
              if b then
                Except.ok (("  - " ++ pyCapitalize d ++ ": " ++
                  pyStr (h.get "open") ++ "–" ++ pyStr (h.get "close")) :: tl)
              else Except.ok tl

/-- The services block of _fallback_from_metadata (empty when services
is falsy; the join raises on a list with non-str elements). -/
def servicesLines (services : PyVal) : Except PyErr (List String) :=
  if services.truthy then
    match services with
    | PyVal.list xs =>
        match joinServices xs with
        | Except.ok j => Except.ok ["\n• Services: " ++ j]
        | Except.error e => Except.error e
    | _ => Except.ok ["\n• Services: " ++ pyStr services]
  else Except.ok []

/-- The working-hours block of _fallback_from_metadata (.items() on a
truthy non-dict raises). -/
def hoursBlock (hours : PyVal) : Except PyErr (List String) :=
  if hours.truthy then
    match hours with
    | PyVal.dict kvs =>
        match hoursLines kvs with
        | Except.ok ls => Except.ok (["\n• Working hours:"] ++ ls)
        | Except.error e => Except.error e
    | _ => Except.error (PyErr.attributeError "items")
  else Except.ok []

/-- The contact block of _fallback_from_metadata. -/
def contactLines (email phone : PyVal) : List String :=
  if email.truthy || phone.truthy then
    ["\n• Contact:"] ++
    (if email.truthy then ["  - Email: " ++ pyStr email] else []) ++
    (if phone.truthy then ["  - Phone/WhatsApp: " ++ pyStr phone] else [])
  else []

/-- The closing line of _fallback_from_metadata. -/
def fallbackClosing (question : String) : String :=
  "\nYou asked: “" ++ question ++
  "”. I can also help you book an appointment if you share a date and time."

/-- The opening line of _fallback_from_metadata. -/
def fallbackHead (meta : PyVal) : String :=
  "Here\x27s what I can tell you about " ++
  pyStr (meta.getD "name" (PyVal.str "this business")) ++ ":"

/-- _fallback_from_metadata. -/
def fallback_from_metadata (question : String) (meta : PyVal) :
    Except PyErr String :=
  let services := pyOr (meta.get "services") (PyVal.list [])
  let hours := pyOr (meta.get "working_hours") (PyVal.dict [])
  let email := pyOr (meta.get "contact_email") (PyVal.str "")
  let phone := pyOr (meta.get "contact_phone") (PyVal.str "")
  match servicesLines services with
  | Except.error e => Except.error e
  | Except.ok l1 =>
      match hoursBlock hours with
      | Except.error e => Except.error e
      | Except.ok l2 =>
          Except.ok (pyJoin "\n"
            (fallbackHead meta :: (l1 ++ l2 ++ contactLines email phone ++
              [fallbackClosing question])))

/-- _build_prompt (the braces of the embedded json example are escaped
as \x7b and \x7d). -/
def build_prompt (user_message : String) (docs : List RDoc) (meta : PyVal) :
    String :=
  let docs_block := if docs.isEmpty then "No matching documents."
    else formatDocuments docs
  "\nYou are BizGenie, an AI assistant for a small business.\n\n" ++
  "BUSINESS INFO:\n" ++ jsonDumpsInd 0 meta ++ "\n\n" ++
  "DOCUMENTS:\n" ++ docs_block ++ "\n\n" ++
  "RULES:\n" ++
  "1. If the user clearly asks to book / reschedule / cancel / confirm " ++
  "an appointment\n   BUT they do NOT provide a specific date and time " ++
  "→ DO NOT call tools.\n   Instead, ask them to share date and time.\n\n" ++
  "2. If they ask a normal question about services / prices / " ++
  "availability\n   → Answer in natural English using the documents and " ++
  "business info.\n   DO NOT return JSON in this case.\n\n" ++
  "3. If they ask you to send a WhatsApp message (e.g. \"send me a " ++
  "WhatsApp\", \"send a message on WhatsApp\"):\n   You MAY respond " ++
  "with JSON like:\n   \x7b\n     \"answer\": \"<what you will send>\",\n" ++
  "     \"call_tool\": \x7b\n        \"name\": \"send_whatsapp_message\"," ++
  "\n        \"params\": \x7b\n           \"to\": \"<phone or leave " ++
  "empty>\",\n           \"message\": \"<body>\"\n        \x7d\n     " ++
  "\x7d\n   \x7d\n\nIMPORTANT:\n- Only return JSON when you are SURE a " ++
  "tool should be used.\n- Otherwise, return plain English text only.\n\n" ++
  "USER MESSAGE:\n" ++ user_message ++ "\n\nNow respond:\n"

/-- The answer text of the booking fast path. -/
def autobookAnswer (date time : String) : String :=
  "Great, I’ll book an appointment for you on " ++ date ++ " at " ++ time ++
  ". You’ll receive a confirmation shortly."

/-- The params dict the booking fast path builds (end_dt is left out on
purpose, per the source comment). -/
def autobookParams (user_message date time : String) (meta : PyVal) : PyVal :=
  PyVal.dict
    [("title", PyVal.str ("Appointment on " ++ date ++ " at " ++ time)),
     ("description", PyVal.str user_message),
     ("start_dt", PyVal.str (date ++ "T" ++ time)),
     ("location", meta.get "address"),
     ("send_via_email", PyVal.bool true),
     ("send_via_whatsapp", PyVal.bool (meta.get "contact_phone").truthy)]

/-- The structured reply of the booking fast path. -/
def autobookPayload (user_message date time : String) (meta : PyVal) :
    PyVal :=
  PyVal.dict
    [("answer", PyVal.str (autobookAnswer date time)),
     ("call_tool", PyVal.dict
       [("name", PyVal.str "create_event"),
        ("params", autobookParams user_message date time meta)])]

/-- The clarification reply used when a tool is wanted but the date or
time is missing. -/
def clarificationText : String :=
  "I can help you with appointments or WhatsApp messages. " ++
  "Please share the exact date (YYYY-MM-DD) and time (HH:MM) " ++
  "you’d like for the appointment, or clarify what you’d like me to send."

/-- Result dict of generate_answer. -/
structure RagResult where
  reply : String
  documents_used : Nat
  metadata_context : PyVal
  deriving Repr

/-- generate_answer. The LLM backend is the llm oracle: an exception or
a reply string. The vector-store call runs under try/except and
degrades to []. -/
def generate_answer (business_id : Int) (user_message : String)
    (n_results : Nat := 5) (metadata_context : PyVal := PyVal.none)
    (vs : VSState) (llm : String → Except String String) :
    Except PyErr RagResult :=
  let meta := pyOr metadata_context (PyVal.dict [])
  let docs :=
    match query_documents vs business_id user_message n_results with
    | Except.ok l => l
    | Except.error _ => []
  let wants_tool := user_wants_tool user_message
  let dt := extract_datetime user_message
  if wants_tool && dt.1.isSome && dt.2.isSome then
    let reply_str := jsonDumps
      (autobookPayload user_message (dt.1.getD "") (dt.2.getD "") meta)
    Except.ok ⟨reply_str, docs.length, meta⟩
  else if wants_tool && (dt.1.isNone || dt.2.isNone) then
    Except.ok ⟨clarificationText, docs.length, meta⟩
  else
    let prompt := build_prompt user_message docs meta
    let reply0 :=
      match llm prompt with
      | Except.ok r => pyStrip r
      | Except.error _ => ""
    if reply0 = "" then
      match fallback_from_metadata user_message meta with
      | Except.ok fb => Except.ok ⟨fb, docs.length, meta⟩
      | Except.error e => Except.error e
    else Except.ok ⟨reply0, docs.length, meta⟩

/-! ## app/agents/nodes/appointment.py -/

/-- The booking words of extract_appointment_details. -/
def APPT_BOOKING_WORDS : List String :=
  ["book", "schedule", "appointment", "reserve", "slot", "meeting"]

/-- The approximate time keywords of extract_appointment_details, in
source order (the first match wins). -/
def APPT_TIME_KEYWORDS : List String :=
  ["morning", "evening", "afternoon",
   "tomorrow", "today", "next week", "monday", "tuesday",
   "wednesday", "thursday", "friday", "saturday", "sunday"]

/-- extract_appointment_details: booking intent flag and first matching
time phrase. -/
def extract_appointment_details (user_message : String) :
    Bool × Option String :=
  let msg := pyLower user_message
  (containsAny APPT_BOOKING_WORDS msg,
   APPT_TIME_KEYWORDS.find? (fun t => strIn t msg))

/-- The structured reply appointment_node builds when a booking intent
comes with an approximate time phrase. -/
def apptAutobookPayload (time_phrase user_message : String)
    (business_context : PyVal) : PyVal :=
  let contact_email := business_context.get "contact_email"
  let contact_phone := business_context.get "contact_phone"
  let business_name := business_context.getD "name" (PyVal.str "the business")
  PyVal.dict
    [("answer", PyVal.str
      ("Okay! I’ll tentatively schedule an appointment (" ++ time_phrase ++
       ") for you at " ++ pyStr business_name ++ ".")),
     ("call_tool", PyVal.dict
       [("name", PyVal.str "create_event"),
        ("params", PyVal.dict
          [("title", PyVal.str ("Appointment (" ++ time_phrase ++ ")")),
           ("description", PyVal.str user_message),
           ("start_dt", PyVal.none),
           ("end_dt", PyVal.none),
           ("location", business_context.get "address"),
           ("attendees_emails", PyVal.list
             (if contact_email.truthy then [contact_email] else [])),
           ("send_via_email", PyVal.bool true),
           ("send_via_whatsapp", PyVal.bool contact_phone.truthy)])])]

/-- appointment_node, reduced to the response string it writes into the
state. -/
def appointment_node (user_message : String) (business_context0 : PyVal) :
    String :=
  let business_context := pyOr business_context0 (PyVal.dict [])
  let ex := extract_appointment_details user_message
  if ex.1 then
    match ex.2 with
    | Option.some t =>
        jsonDumps (apptAutobookPayload t user_message business_context)
    | Option.none =>
        "Sure! To book an appointment, please tell me your preferred " ++
        "date and time."
  else if strIn "cancel" (pyLower user_message) then
    "To cancel an appointment, please tell me the date/time of the booking."
  else
    "I can help you book, reschedule, or cancel an appointment. " ++
    "Tell me what you\x27d like to do."

/-! ## app/config.py — the Config settings class

Exactly the fields config.py declares. Note that no ULTRAMSG_* field
exists: whatsapp_mcp.py reads settings.ULTRAMSG_TOKEN,
settings.ULTRAMSG_INSTANCE_ID and settings.ULTRAMSG_API_BASE, which on
this pydantic settings object (extra inputs ignored, not stored) raise
AttributeError. -/

/-- Central application settings, as declared in config.py. -/
structure Config where
  WHATSAPP_MCP_ENABLED : Bool := false
  WHATSAPP_API_URL : Option String := Option.none
  WHATSAPP_PHONE_ID : Option String := Option.none
  WHATSAPP_ACCESS_TOKEN : Option String := Option.none
  WHATSAPP_SENDER_NAME : Option String := Option.some "BizGenie"
  EMAIL_MCP_ENABLED : Bool := false
  EMAIL_HOST : Option String := Option.none
  EMAIL_PORT : Option Int := Option.some 587
  EMAIL_USERNAME : Option String := Option.none
  EMAIL_PASSWORD : Option String := Option.none
  CALENDAR_MCP_ENABLED : Bool := false
  CALENDAR_SENDER_EMAIL : Option String := Option.none
  API_SERVICE_KEY : Option String := Option.none

/-- Python truthiness of an optional string setting (None and "" are
falsy). -/
def optTruthy : Option String → Bool
  | Option.none => false
  | Option.some s => s != ""

/-- Python x or default for an optional int (None and 0 are falsy). -/
def intOr (o : Option Int) (dflt : Int) : Int :=
  match o with
  | Option.none => dflt
  | Option.some n => if n = 0 then dflt else n

/-- Python x or default for an optional string. -/
def strOr (o : Option String) (dflt : String) : String :=
  match o with
  | Option.none => dflt
  | Option.some s => if s = "" then dflt else s

/-- Attribute access settings.ULTRAMSG_TOKEN: the field does not exist
on Config, so it raises. -/
def ultramsgToken (settings : Config) : Except PyErr String :=
  let _ := settings
  Except.error (PyErr.attributeError "ULTRAMSG_TOKEN")

/-- Attribute access settings.ULTRAMSG_INSTANCE_ID: missing field. -/
def ultramsgInstanceId (settings : Config) : Except PyErr String :=
  let _ := settings
  Except.error (PyErr.attributeError "ULTRAMSG_INSTANCE_ID")

/-- Attribute access settings.ULTRAMSG_API_BASE: missing field. -/
def ultramsgApiBase (settings : Config) : Except PyErr String :=
  let _ := settings
  Except.error (PyErr.attributeError "ULTRAMSG_API_BASE")

/-! ## Notification senders

Each sender returns the uniform result dict modelled by SendResult and
a trace of the outbound provider calls it performed. -/

/-- The uniform result shape of the notification senders. -/
structure SendResult where
  success : Bool
  message : String
  details : PyVal
  deriving Repr

/-- One outbound provider call. -/
inductive Outbound where
  | smtpSend (host : Option String) (port : Int) (dest subject : String)
  | httpPost (url : String) (payload : PyVal)
  deriving Repr

/-- SendResult as the Python dict it is. -/
def sendResultToPy (r : SendResult) : PyVal :=
  PyVal.dict [("success", PyVal.bool r.success),
              ("message", PyVal.str r.message),
              ("details", r.details)]

/-! ### app/tools/email_mcp.py -/

/-- Content of an attachment entry: the isinstance cascade of
_build_message accepts Path, bytes and str; anything else (including a
missing content key, which .get returns as None) raises ValueError.
Unreadable paths make read_bytes raise OSError. -/
inductive AttContent where
  | pathContent (readable : Bool)
  | bytesContent (size : Nat)
  | strContent (readable : Bool)
  | otherContent
  deriving Repr

/-- One attachment dict passed to send_email. -/
structure Attachment where
  filename : PyVal := PyVal.none
  mime_type : Option String := Option.none
  content : AttContent := AttContent.otherContent
  deriving Repr

/-- The built email message (the fields _send_message later reads). -/
structure EmailMsg where
  fromAddr : String
  toAddr : String
  subject : String
  body : String
  attachmentCount : Nat
  deriving Repr

/-- _is_valid_email. parseaddr is modelled as the identity on the plain
addresses this system passes around (no display names or angle
brackets): non-empty, contains @, and the part after the last @
contains a dot. -/
def is_valid_email (address : String) : Bool :=
  address != "" && strIn "@" address &&
  strIn "." (String.mk ((splitOnChar '@' address.data).getLastD []))

/-- _is_enabled of email_mcp. -/
def emailEnabled (settings : Config) : Bool :=
  settings.EMAIL_MCP_ENABLED && optTruthy settings.EMAIL_HOST &&
  optTruthy settings.EMAIL_USERNAME

/-- The attachment loop of _build_message. -/
def buildAttachments : List Attachment → Except PyErr Nat
  | [] => Except.ok 0
  | att :: rest =>
      let mime := match att.mime_type with
        | Option.none => "application/octet-stream"
        | Option.some m => m
      if ¬ strIn "/" mime then
        Except.error (PyErr.valueError "not enough values to unpack")
      else
        let content : Except PyErr Unit :=
          match att.content with
          | AttContent.pathContent true => Except.ok ()
          | AttContent.pathContent false =>
              Except.error (PyErr.osError "read_bytes")
          | AttContent.bytesContent _ => Except.ok ()
          | AttContent.strContent true => Except.ok ()
          | AttContent.strContent false =>
              Except.error (PyErr.osError "read_bytes")
          | AttContent.otherContent =>
              Except.error
                (PyErr.valueError "Unsupported attachment content type")
        match content with
        | Except.error e => Except.error e
        | Except.ok _ =>
            match buildAttachments rest with
            | Except.ok n => Except.ok (n + 1)
            | Except.error e => Except.error e

/-- _build_message. -/
def build_message (settings : Config) (toAddr subject body : String)
    (attachments : Option (List Attachment)) : Except PyErr EmailMsg :=
  let fromAddr := strOr settings.EMAIL_USERNAME "noreply@bizgenie.ai"
  let atts := match attachments with
    | Option.none => []
    | Option.some l => l
  match buildAttachments atts with
  | Except.error e => Except.error e
  | Except.ok n => Except.ok ⟨fromAddr, toAddr, subject, body, n⟩

/-- _send_message: disabled configuration short-circuits; an SMTP
exception from the provider call becomes a failure result. The smtp
oracle maps the recipient to the outcome of aiosmtplib.send. -/
def send_message (settings : Config) (smtp : String → Except String Unit)
    (msg : EmailMsg) : SendResult × List Outbound :=
  if ¬ emailEnabled settings then
    (⟨false, "Email MCP disabled or misconfigured",
      PyVal.dict [("enabled", PyVal.bool settings.EMAIL_MCP_ENABLED)]⟩, [])
  else
    let host := settings.EMAIL_HOST
    let port := intOr settings.EMAIL_PORT 587
    let out := [Outbound.smtpSend host port msg.toAddr msg.subject]
    match smtp msg.toAddr with
    | Except.error e =>
        (⟨false, "SMTP error sending email",
          PyVal.dict [("error", PyVal.str e)]⟩, out)
    | Except.ok _ =>
        (⟨true, "Email sent successfully",
          PyVal.dict [("to", PyVal.str msg.toAddr),
                      ("subject", PyVal.str msg.subject)]⟩, out)

/-- send_email. -/
def send_email (settings : Config) (smtp : String → Except String Unit)
    (toAddr subject body : String)
    (attachments : Option (List Attachment) := Option.none) :
    Except PyErr (SendResult × List Outbound) :=
  if ¬ is_valid_email toAddr then
    Except.ok (⟨false, "Invalid recipient email address",
      PyVal.dict [("to", PyVal.str toAddr)]⟩, [])
  else
    match build_message settings toAddr subject body attachments with
    | Except.error e => Except.error e
    | Except.ok msg => Except.ok (send_message settings smtp msg)

/-! ### app/tools/whatsapp_mcp.py -/

/-- _format_body. -/
def format_body (settings : Config) (message : String) : String :=
  let sender := strOr settings.WHATSAPP_SENDER_NAME "BizGenie"
  sender ++ ":\n" ++ pyStrip message ++ "\n\nReply STOP to unsubscribe."

/-- _is_enabled of whatsapp_mcp; reading settings.ULTRAMSG_TOKEN
raises. -/
def whatsappEnabled (settings : Config) : Except PyErr Bool :=
  match ultramsgToken settings with
  | Except.error e => Except.error e
  | Except.ok tok =>
      Except.ok (settings.WHATSAPP_MCP_ENABLED && tok != "")

/-- _post_whatsapp. The http oracle gives the status code and body of
the UltraMsg response, or a transport error. -/
def post_whatsapp (settings : Config)
    (http : PyVal → Except String (Nat × String × PyVal))
    (form_payload : PyVal) : Except PyErr (SendResult × List Outbound) :=
  match whatsappEnabled settings with
  | Except.error e => Except.error e
  | Except.ok enabled =>
      if ¬ enabled then
        Except.ok (⟨false, "WhatsApp MCP disabled or misconfigured",
          PyVal.dict
            [("enabled", PyVal.bool settings.WHATSAPP_MCP_ENABLED)]⟩, [])
      else
        match ultramsgInstanceId settings with
        | Except.error e => Except.error e
        | Except.ok instance_id =>
            match ultramsgToken settings with
            | Except.error e => Except.error e
            | Except.ok token =>
                match ultramsgApiBase settings with
                | Except.error e => Except.error e
                | Except.ok api_base0 =>
                    let api_base :=
                      if api_base0 = "" then "https://api.ultramsg.com"
                      else api_base0
                    if instance_id = "" ∨ token = "" then
                      Except.ok (⟨false, "UltraMsg credentials missing",
                        PyVal.dict
                          [("instance_id", PyVal.str instance_id),
                           ("token", PyVal.bool (token != ""))]⟩, [])
                    else
                      let url := api_base ++ "/" ++ instance_id ++ "/messages"
                      let out := [Outbound.httpPost url form_payload]
                      match http form_payload with
                      | Except.error e =>
                          Except.ok
                            (⟨false, "HTTP error sending WhatsApp message",
                              PyVal.dict [("error", PyVal.str e)]⟩, out)
                      | Except.ok (status, bodyText, data) =>
                          if 400 ≤ status then
                            Except.ok (⟨false, "UltraMsg API error",
                              PyVal.dict
                                [("status", PyVal.int status),
                                 ("body", PyVal.str bodyText)]⟩, out)
                          else
                            Except.ok
                              (⟨true, "WhatsApp message sent", data⟩, out)

/-- send_whatsapp_message: formats the body, then builds the form
payload whose first field reads the missing settings.ULTRAMSG_TOKEN. -/
def send_whatsapp_message (settings : Config)
    (http : PyVal → Except String (Nat × String × PyVal))
    (toAddr message : String) : Except PyErr (SendResult × List Outbound) :=
  let formatted := format_body settings message
  match ultramsgToken settings with
  | Except.error e => Except.error e
  | Except.ok token =>
      let payload := PyVal.dict
        [("token", PyVal.str token),
         ("to", PyVal.str toAddr),
         ("body", PyVal.str formatted)]
      post_whatsapp settings http payload

/-! ### app/tools/calendar_mcp.py -/

/-- A datetime value (naive, second precision). -/
structure DT where
  year : Nat
  month : Nat
  day : Nat
  hour : Nat
  minute : Nat
  second : Nat
  deriving Repr

/-- Zero-padded decimal of fixed width. -/
def padNat (n w : Nat) : String := padDigits n w

/-- strftime "%Y%m%dT%H%M%SZ" as used by the ICS generator. -/
def dtIcs (dt : DT) : String :=
  padNat dt.year 4 ++ padNat dt.month 2 ++ padNat dt.day 2 ++ "T" ++
  padNat dt.hour 2 ++ padNat dt.minute 2 ++ padNat dt.second 2 ++ "Z"

/-- datetime.isoformat(). -/
def dtIso (dt : DT) : String :=
  padNat dt.year 4 ++ "-" ++ padNat dt.month 2 ++ "-" ++ padNat dt.day 2 ++
  "T" ++ padNat dt.hour 2 ++ ":" ++ padNat dt.minute 2 ++ ":" ++
  padNat dt.second 2

/-- str(datetime). -/
def dtStr (dt : DT) : String :=
  padNat dt.year 4 ++ "-" ++ padNat dt.month 2 ++ "-" ++ padNat dt.day 2 ++
  " " ++ padNat dt.hour 2 ++ ":" ++ padNat dt.minute 2 ++ ":" ++
  padNat dt.second 2

/-- generate_ics_event; uid is the uuid4 value drawn by the caller. -/
def generate_ics_event (title : String) (start_dt end_dt : DT)
    (description : String) (location : Option String)
    (attendees : List String) (uid : String) : String :=
  let head :=
    ["BEGIN:VCALENDAR", "VERSION:2.0", "PRODID:-//BizGenie//Calendar MCP//EN",
     "BEGIN:VEVENT", "UID:" ++ uid ++ "@bizgenie",
     "DTSTAMP:" ++ dtIcs start_dt, "DTSTART:" ++ dtIcs start_dt,
     "DTEND:" ++ dtIcs end_dt, "SUMMARY:" ++ title,
     "DESCRIPTION:" ++ description]
  let locLines := match location with
    | Option.some l => if l ≠ "" then ["LOCATION:" ++ l] else []
    | Option.none => []
  let attLines := attendees.map (fun a => "ATTENDEE;RSVP=TRUE:mailto:" ++ a)
  pyJoin "\n"
    (head ++ locLines ++ attLines ++ ["END:VEVENT", "END:VCALENDAR"])

/-- The per-attendee email loop of create_event. -/
def eventEmailLoop (settings : Config) (smtp : String → Except String Unit)
    (subject body : String) (attachments : List Attachment) :
    List String → Except PyErr (List (String × SendResult) × List Outbound)
  | [] => Except.ok ([], [])
  | attendee :: rest =>
      match send_email settings smtp attendee subject body
        (Option.some attachments) with
      | Except.error e => Except.error e
      | Except.ok (res, out) =>
          match eventEmailLoop settings smtp subject body attachments rest with
          | Except.error e => Except.error e
          | Except.ok (tl, out2) =>
              Except.ok ((attendee, res) :: tl, out ++ out2)

/-- create_event. Returns the uniform result and the outbound calls it
made; disabled configuration returns before anything else happens. -/
def create_event (settings : Config) (smtp : String → Except String Unit)
    (uid : String) (title : String) (start_dt end_dt : DT)
    (description : String) (attendees_emails : List String)
    (location : Option String := Option.none)
    (send_via_email : Bool := true) (send_via_whatsapp : Bool := false) :
    Except PyErr (SendResult × List Outbound) :=
  if ¬ settings.CALENDAR_MCP_ENABLED then
    Except.ok (⟨false, "Calendar MCP disabled", PyVal.dict []⟩, [])
  else
    let ics := generate_ics_event title start_dt end_dt description
      location attendees_emails uid
    let baseDetails : List (String × PyVal) :=
      [("title", PyVal.str title),
       ("start", PyVal.str (dtIso start_dt)),
       ("end", PyVal.str (dtIso end_dt)),
       ("attendees", PyVal.list (attendees_emails.map PyVal.str)),
       ("location", match location with
         | Option.some l => PyVal.str l
         | Option.none => PyVal.none)]
    let _ := send_via_whatsapp
    let emailPart : Except PyErr (List (String × PyVal) × List Outbound) :=
      if send_via_email && !attendees_emails.isEmpty then
        let attachments : List Attachment :=
          [⟨PyVal.str (title ++ ".ics"), Option.some "text/calendar",
            AttContent.bytesContent ics.length⟩]
        let email_body := "You have a new event:\n\n" ++ title ++ "\n" ++
          "Start: " ++ dtStr start_dt ++ "\nEnd: " ++ dtStr end_dt ++
          "\n\n" ++ description
        match eventEmailLoop settings smtp ("New Event: " ++ title)
          email_body attachments attendees_emails with
        | Except.error e => Except.error e
        | Except.ok (sent, out) =>
            Except.ok
              (baseDetails ++
               [("emails_sent", PyVal.list (sent.map (fun p =>
                 PyVal.dict [("to", PyVal.str p.1),
                             ("result", sendResultToPy p.2)])))], out)
      else Except.ok (baseDetails, [])
    match emailPart with
    | Except.error e => Except.error e
    | Except.ok (details, out) =>
        Except.ok (⟨true, "Event created", PyVal.dict details⟩, out)

/-! ## app/agents/graph.py — tool_router

The router parses the generator reply and schedules the recognized tool
coroutine in the background. Constructing a coroutine binds the
keyword arguments against the Python signature of the tool, so a
**params call with missing required or unexpected keyword arguments
raises TypeError before _schedule runs; graph.py moreover imports
send_whatsapp_confirmation / _update / _cancellation / _followup from
whatsapp_mcp.py, where no such functions exist, so those four branches
cannot resolve their callee (the import itself fails at module load)
and are modelled as raising. Scheduled coroutines are returned as a
trace; their later execution is fire-and-forget and only logged. -/

/-- Python tool_name == "literal": equal only when the value is that
string. -/
def pyEqStr (v : PyVal) (s : String) : Bool :=
  match v with
  | PyVal.str t => t == s
  | _ => false

/-- Python v is None. -/
def PyVal.isNone : PyVal → Bool
  | PyVal.none => true
  | _ => false

/-- Lookup in the business-context dict the router receives. -/
def ctxGet (ctx : List (String × PyVal)) (k : String) : PyVal :=
  match alistGet ctx k with
  | Option.none => PyVal.none
  | Option.some v => v

/-- One entry of the tool_actions list; dest models the "to" key,
absent for the wrapper branches. -/
structure ToolAction where
  tool : String
  action : String
  dest : Option PyVal := Option.none
  deriving Repr

/-- A coroutine handed to _schedule. -/
inductive Sched where
  | whatsappMessage (dest message : PyVal)
  | emailSend (dest subject body : PyVal)
  | wrapped (fname : String) (kwargs : List (String × PyVal))
  deriving Repr

/-- The dict tool_router returns. -/
structure RouterResult where
  reply : PyVal
  tool_actions : List ToolAction
  deriving Repr

/-- Keyword binding of f(**params) against the signature of f: params
must be a mapping, every required name must be bound, and no name
outside the signature may appear; otherwise the call raises TypeError
before the coroutine exists. -/
def bindKwargs (fname : String) (required optional : List String)
    (params : PyVal) : Except PyErr (List (String × PyVal)) :=
  match params with
  | PyVal.dict kvs =>
      let keys := kvs.map Prod.fst
      if ¬ required.all (fun r => keys.contains r) then
        Except.error (PyErr.typeError
          (fname ++ "() missing required positional arguments"))
      else if ¬ keys.all (fun k =>
          required.contains k || optional.contains k) then
        Except.error (PyErr.typeError
          (fname ++ "() got an unexpected keyword argument"))
      else Except.ok kvs
  | _ =>
      Except.error (PyErr.typeError
        (fname ++ "() argument after ** must be a mapping"))

/-- A wrapper branch: bind **params against the signature, schedule the
coroutine and record the action entry. -/
def wrappedBranch (toolTag fname : String) (required optional : List String)
    (params : PyVal) : Except PyErr (List ToolAction × List Sched) :=
  match bindKwargs fname required optional params with
  | Except.error e => Except.error e
  | Except.ok kvs =>
      Except.ok ([⟨toolTag, fname, Option.none⟩], [Sched.wrapped fname kvs])

/-- The defaults the create_event branch merges into the copied params
dict from the business context before binding. -/
def createEventDefaults (kvs0 : List (String × PyVal))
    (ctx : List (String × PyVal)) : List (String × PyVal) :=
  let kvs1 :=
    if ((PyVal.dict kvs0).get "send_via_email").isNone then
      alistSet kvs0 "send_via_email" (PyVal.bool true)
    else kvs0
  let kvs2 :=
    if ((PyVal.dict kvs1).get "send_via_whatsapp").isNone then
      alistSet kvs1 "send_via_whatsapp"
        (PyVal.bool (ctxGet ctx "contact_phone").truthy)
    else kvs1
  let kvs3 :=
    if ¬ (PyVal.dict kvs2).hasKey "attendees_emails" ||
        ¬ ((PyVal.dict kvs2).get "attendees_emails").truthy then
      let attendees :=
        if (ctxGet ctx "contact_email").truthy then
          [ctxGet ctx "contact_email"]
        else []
      alistSet kvs2 "attendees_emails" (PyVal.list attendees)
    else kvs2
  if ((PyVal.dict kvs3).get "send_via_whatsapp").truthy &&
      ¬ ((PyVal.dict kvs3).get "whatsapp_to").truthy &&
      (ctxGet ctx "contact_phone").truthy then
    alistSet kvs3 "whatsapp_to" (ctxGet ctx "contact_phone")
  else kvs3

/-- The branch cascade of tool_router for a string tool name (Python
equality of tool_name with each string literal; a non-string tool name
matches no branch). -/
def dispatchByName (s : String) (params d : PyVal)
    (ctx : List (String × PyVal)) :
    Except PyErr (List ToolAction × List Sched) :=
  if s = "send_whatsapp_message" then
    match params with
    | PyVal.dict _ =>
        if (pyOr (params.get "to") (ctxGet ctx "contact_phone")).truthy &&
            (pyOr (params.get "message") (d.get "answer")).truthy then
          Except.ok
            ([⟨"whatsapp", "send_whatsapp_message",
               Option.some (pyOr (params.get "to")
                 (ctxGet ctx "contact_phone"))⟩],
             [Sched.whatsappMessage
               (pyOr (params.get "to") (ctxGet ctx "contact_phone"))
               (pyOr (params.get "message") (d.get "answer"))])
        else Except.ok ([], [])
    | _ => Except.error (PyErr.attributeError "get")
  else if s = "send_whatsapp_confirmation" then
    Except.error (PyErr.nameError "send_whatsapp_confirmation")
  else if s = "send_whatsapp_update" then
    Except.error (PyErr.nameError "send_whatsapp_update")
  else if s = "send_whatsapp_cancellation" then
    Except.error (PyErr.nameError "send_whatsapp_cancellation")
  else if s = "send_whatsapp_followup" then
    Except.error (PyErr.nameError "send_whatsapp_followup")
  else if s = "send_email" then
    match params with
    | PyVal.dict _ =>
        if (pyOr (params.get "to") (ctxGet ctx "contact_email")).truthy &&
            (pyOr (params.get "body") (d.get "answer")).truthy then
          Except.ok
            ([⟨"email", "send_email",
               Option.some (pyOr (params.get "to")
                 (ctxGet ctx "contact_email"))⟩],
             [Sched.emailSend
               (pyOr (params.get "to") (ctxGet ctx "contact_email"))
               (pyOr (params.get "subject") (PyVal.str "BizGenie Notification"))
               (pyOr (params.get "body") (d.get "answer"))])
        else Except.ok ([], [])
    | _ => Except.error (PyErr.attributeError "get")
  else if s = "send_email_confirmation" then
    wrappedBranch "email" "send_email_confirmation"
      ["to", "title", "start", "end"] ["location"] params
  else if s = "send_email_update" then
    wrappedBranch "email" "send_email_update"
      ["to", "title", "new_start", "new_end"] ["location"] params
  else if s = "send_email_cancellation" then
    wrappedBranch "email" "send_email_cancellation"
      ["to", "title"] ["reason"] params
  else if s = "send_email_reminder" then
    wrappedBranch "email" "send_email_reminder"
      ["to", "title", "start"] [] params
  else if s = "send_email_followup" then
    wrappedBranch "email" "send_email_followup"
      ["to", "title"] ["last_message"] params
  else if s = "create_event" then
    match params with
    | PyVal.dict kvs0 =>
        wrappedBranch "calendar" "create_event"
          ["title", "start_dt", "end_dt", "description", "attendees_emails"]
          ["location", "send_via_email", "send_via_whatsapp"]
          (PyVal.dict (createEventDefaults kvs0 ctx))
    | _ =>
        Except.error (PyErr.typeError "dict() argument must be a mapping")
  else if s = "update_event" then
    wrappedBranch "calendar" "update_event"
      ["title", "new_start", "new_end", "description", "attendees_emails"]
      ["location", "send_via_email", "send_via_whatsapp"] params
  else if s = "cancel_event" then
    wrappedBranch "calendar" "cancel_event"
      ["title", "attendees_emails"]
      ["send_via_email", "send_via_whatsapp", "reason"] params
  else Except.ok ([], [])

/-- The branch cascade of tool_router: a string name dispatches by
name, any other tool_name value equals no branch literal and falls
through to the common return. -/
def dispatchTool (tool_name params d : PyVal)
    (ctx : List (String × PyVal)) :
    Except PyErr (List ToolAction × List Sched) :=
  match tool_name with
  | PyVal.str s => dispatchByName s params d ctx
  | _ => Except.ok ([], [])

/-- The part of tool_router that runs after json.loads succeeded
(Python "if not call" and "if not tool_name" are rendered with the
branches swapped). -/
def routePayload (d : PyVal) (raw : String) (ctx : List (String × PyVal)) :
    Except PyErr (RouterResult × List Sched) :=
  match d with
  | PyVal.dict _ =>
      if (d.get "call_tool").truthy then
        match (d.get "call_tool").getE "name" with
        | Except.error e => Except.error e
        | Except.ok tool_name =>
            match (d.get "call_tool").getE "params" with
            | Except.error e => Except.error e
            | Except.ok params0 =>
                if tool_name.truthy then
                  match dispatchTool tool_name (pyOr params0 (PyVal.dict []))
                    d ctx with
                  | Except.error e => Except.error e
                  | Except.ok (actions, sched) =>
                      Except.ok
                        (⟨pyOr (d.get "answer") (PyVal.str raw), actions⟩,
                         sched)
                else Except.ok (⟨d.getD "answer" (PyVal.str raw), []⟩, [])
      else Except.ok (⟨d.getD "answer" (PyVal.str raw), []⟩, [])
  | _ => Except.error (PyErr.attributeError "get")

/-- tool_router: a json parse failure means plain text, no side
effect. -/
def tool_router (reply : String) (ctx : List (String × PyVal)) :
    Except PyErr (RouterResult × List Sched) :=
  match jsonLoads reply with
  | Except.error _ => Except.ok (⟨PyVal.str reply, []⟩, [])
  | Except.ok d => routePayload d reply ctx

/-! ## app/routes/chat.py — chat endpoint (Mode A: no tools) -/

/-- A row of the businesses table; the JSON columns and nullable text
columns are PyVal. -/
structure Business where
  id : Int
  name : PyVal
  description : PyVal
  services : PyVal
  working_hours : PyVal
  contact_email : PyVal
  contact_phone : PyVal

/-- _business_context. -/
def business_context (b : Business) : PyVal :=
  PyVal.dict
    [("id", PyVal.int b.id),
     ("name", b.name),
     ("description", b.description),
     ("services", pyOr b.services (PyVal.list [])),
     ("working_hours", pyOr b.working_hours (PyVal.dict [])),
     ("contact_email", b.contact_email),
     ("contact_phone", b.contact_phone)]

/-- ChatRequest. -/
structure ChatRequest where
  business_id : Int
  user_name : String
  user_message : String
  conversation_id : Option String := Option.none

/-- ChatResponse. -/
structure ChatResponse where
  reply : String
  tool_actions : List PyVal
  conversation_id : String
  intent : Option String
  deriving Repr

/-- Default reply when the generator returns a falsy reply field. -/
def chatFallbackReply : String :=
  "Thanks for your message. I can share our services, hours, " ++
  "and basic info. Try asking about services or booking."

/-- Reply when generate_answer raises. -/
def chatErrorReply : String :=
  "I\x27m having a bit of trouble answering right now, " ++
  "but you can ask again or contact the business directly."

/-- _notify_new_lead: best-effort email and WhatsApp notifications,
each under try/except; only the outbound calls escape as the trace. -/
def notify_new_lead (settings : Config) (smtp : String → Except String Unit)
    (http : PyVal → Except String (Nat × String × PyVal)) (b : Business)
    (name msg : String) : List Outbound :=
  let summary := "New chat lead for " ++ pyStr b.name ++ ":\nName: " ++
    name ++ "\nMessage: " ++ pyTake msg 200
  let emailOut :=
    if settings.EMAIL_MCP_ENABLED && b.contact_email.truthy then
      match b.contact_email with
      | PyVal.str s =>
          match send_email settings smtp s ("New Lead from " ++ name)
            summary Option.none with
          | Except.ok pr => pr.2
          | Except.error _ => []
      | _ => []
    else []
  let whatsappOut :=
    if settings.WHATSAPP_MCP_ENABLED && b.contact_phone.truthy then
      match b.contact_phone with
      | PyVal.str s =>
          match send_whatsapp_message settings http s summary with
          | Except.ok pr => pr.2
          | Except.error _ => []
      | _ => []
    else []
  emailOut ++ whatsappOut

/-- chat_endpoint: loads the business (404 when absent), creates the
lead and notifies on a first message, asks the RAG generator under
try/except, and always answers with plain text, an empty tool_actions
list and no intent. -/
def chat_endpoint (req : ChatRequest) (db : List Business)
    (settings : Config) (smtp : String → Except String Unit)
    (http : PyVal → Except String (Nat × String × PyVal)) (vs : VSState)
    (llm : String → Except String String) :
    Except PyErr (ChatResponse × List Outbound) :=
  match db.find? (fun b => b.id == req.business_id) with
  | Option.none =>
      Except.error (PyErr.httpException 404 "Business not found")
  | Option.some business =>
      let leadOut :=
        if ¬ optTruthy req.conversation_id then
          notify_new_lead settings smtp http business req.user_name
            req.user_message
        else []
      let context := business_context business
      let reply_text :=
        match generate_answer business.id req.user_message 5 context
          vs llm with
        | Except.ok r => if r.reply ≠ "" then r.reply else chatFallbackReply
        | Except.error _ => chatErrorReply
      let conv :=
        if optTruthy req.conversation_id then req.conversation_id.getD ""
        else "conv_" ++ toString business.id
      Except.ok (⟨reply_text, [], conv, Option.none⟩, leadOut)

/-! ## Support definitions for the statements of the claims -/

/-- The 14 tool names the router cascade recognizes (the four whatsapp
wrapper names are recognized by the cascade even though their callees
are missing). -/
def recognizedNames : List String :=
  ["send_whatsapp_message", "send_whatsapp_confirmation",
   "send_whatsapp_update", "send_whatsapp_cancellation",
   "send_whatsapp_followup", "send_email", "send_email_confirmation",
   "send_email_update", "send_email_cancellation", "send_email_reminder",
   "send_email_followup", "create_event", "update_event", "cancel_event"]

/-- A tool name outside the recognized set. -/
def notRecognized (v : PyVal) : Bool :=
  recognizedNames.all (fun n => !pyEqStr v n)

/-- The input parses to a json object whose answer field is an explicit
null. -/
def answerNull (s : String) : Bool :=
  match jsonLoads s with
  | Except.ok d => (d.getD "answer" (PyVal.str s)).isNone
  | Except.error _ => false

/-- The services value can be joined (every list element a str; a
non-list is rendered with str()). -/
def wfServices : PyVal → Bool
  | PyVal.list xs => xs.all (fun v =>
      match v with
      | PyVal.str _ => true
      | _ => false)
  | _ => true

/-- The working-hours value iterates (a truthy value must be a dict
whose truthy entries are dicts), the shape the BusinessCreate schema
guarantees. -/
def wfHours : PyVal → Bool
  | h =>
    if h.truthy then
      match h with
      | PyVal.dict kvs => kvs.all (fun kv =>
          !kv.2.truthy ||
          (match kv.2 with
           | PyVal.dict _ => true
           | _ => false))
      | _ => false
    else true

/-- Well-formed business metadata: what _fallback_from_metadata needs
to run without raising, guaranteed for every metadata map produced from
the schema-validated Business rows. -/
def WFMeta (meta : PyVal) : Bool :=
  wfServices (pyOr (meta.get "services") (PyVal.list [])) &&
  wfHours (pyOr (meta.get "working_hours") (PyVal.dict []))

/-- A vector-store state in simple mode with an empty store, used by
concrete witnesses. -/
def sampleVS : VSState :=
  ⟨false, Except.error "chromadb unavailable", false, Option.none,
   Except.ok [], fun _ _ => 0⟩

/-- An LLM oracle whose backend always raises, used by concrete
witnesses. -/
def llmDown : String → Except String String :=
  fun _ => Except.error "huggingface unavailable"

/-- An SMTP oracle that accepts every message, used by concrete
witnesses. -/
def smtpOk : String → Except String Unit := fun _ => Except.ok ()

/-- An HTTP oracle whose transport always fails, used by concrete
witnesses. -/
def httpDown : PyVal → Except String (Nat × String × PyVal) :=
  fun _ => Except.error "connect timeout"

/-- A concrete business row used by concrete witnesses. -/
def sampleBusiness : Business :=
  ⟨7, PyVal.str "Acme Salon", PyVal.none, PyVal.list [PyVal.str "haircut"],
   PyVal.dict [("monday", PyVal.dict
     [("open", PyVal.str "09:00"), ("close", PyVal.str "17:00")])],
   PyVal.none, PyVal.none⟩

/-! ## Helper lemmas -/

theorem str_ne_empty_of_data (s : String) (h : s.data ≠ []) : s ≠ "" := by
  intro he
  exact h (by rw [he])

theorem append_ne_empty_left (s t : String) (h : s ≠ "") : s ++ t ≠ "" := by
  intro he
  apply h
  have hd : s.data ++ t.data = [] := by
    have h2 : (s ++ t).data = ("" : String).data := by rw [he]
    simpa using h2
  have h3 : s.data = [] := (List.append_eq_nil.mp hd).1
  cases s
  simp_all

theorem pyJoin_foldl_ne (sep : String) (l : List String) :
    ∀ acc : String, acc ≠ "" →
      l.foldl (fun a y => a ++ sep ++ y) acc ≠ "" := by
  induction l with
  | nil => intro acc h; simpa using h
  | cons y ys ih =>
      intro acc h
      simpa using ih (acc ++ sep ++ y)
        (append_ne_empty_left (acc ++ sep) y (append_ne_empty_left acc sep h))

theorem pyJoin_cons_ne (sep x : String) (l : List String) (h : x ≠ "") :
    pyJoin sep (x :: l) ≠ "" := by
  simpa [pyJoin] using pyJoin_foldl_ne sep l x h

theorem listInfix_iff (n : List Char) :
    ∀ h : List Char, listInfix n h = true ↔ n <:+: h := by
  intro h
  induction h with
  | nil => simp [listInfix, List.isEmpty_iff, List.infix_nil]
  | cons c rest ih =>
      simp [listInfix, List.infix_cons_iff, List.isPrefixOf_iff_prefix, ih]

theorem strIn_trans (a b c : String) (h1 : strIn a b = true)
    (h2 : strIn b c = true) : strIn a c = true := by
  simp only [strIn, listInfix_iff] at h1 h2 ⊢
  exact h1.trans h2

/-- Every rag booking keyword contains one of the appointment-node
booking words, so a rag booking hit implies an appointment-node booking
hit on the same lowered text. -/
theorem booking_implies_appt (t : String)
    (h : containsAny BOOKING_KEYWORDS t = true) :
    containsAny APPT_BOOKING_WORDS t = true := by
  simp only [containsAny, List.any_eq_true] at h ⊢
  obtain ⟨k, hk, hin⟩ := h
  have hcover : ∀ k2 ∈ BOOKING_KEYWORDS,
      ∃ a ∈ APPT_BOOKING_WORDS, strIn a k2 = true := by decide
  obtain ⟨a, ha, hak⟩ := hcover k hk
  exact ⟨a, ha, strIn_trans a k t hak hin⟩

theorem alistGet_ne_nil (kvs : List (String × PyVal)) (k : String)
    (v : PyVal) (h : alistGet kvs k = Option.some v) : kvs ≠ [] := by
  cases kvs with
  | nil => simp [alistGet] at h
  | cons a l => simp

theorem pyOr_str_not_none (a : PyVal) (s : String) :
    (pyOr a (PyVal.str s)).isNone = false := by
  unfold pyOr
  split
  · next h => cases a <;> simp_all [PyVal.truthy, PyVal.isNone]
  · simp [PyVal.isNone]

theorem joinServices_ok (xs : List PyVal)
    (h : ∀ v ∈ xs, ∃ s, v = PyVal.str s) :
    ∃ j, joinServices xs = Except.ok j := by
  induction xs with
  | nil => exact ⟨"", rfl⟩
  | cons x rest ih =>
      obtain ⟨s, hs⟩ := h x (List.mem_cons_self x rest)
      subst hs
      cases rest with
      | nil => exact ⟨s, rfl⟩
      | cons y rest2 =>
          obtain ⟨j, hj⟩ := ih (fun v hv => h v (List.mem_cons_of_mem _ hv))
          exact ⟨s ++ ", " ++ j, by simp [joinServices, hj]⟩

theorem hoursLines_ok (kvs : List (String × PyVal))
    (h : ∀ kv ∈ kvs, kv.2.truthy = true → ∃ hk, kv.2 = PyVal.dict hk) :
    ∃ ls, hoursLines kvs = Except.ok ls := by
  induction kvs with
  | nil => exact ⟨[], rfl⟩
  | cons kv rest ih =>
      obtain ⟨ls, hls⟩ := ih (fun v hv ht => h v (List.mem_cons_of_mem _ hv) ht)
      obtain ⟨d, v⟩ := kv
      by_cases htr : v.truthy = true
      · obtain ⟨hk, hhk⟩ := h (d, v) (List.mem_cons_self _ rest) htr
        simp only at hhk
        subst hhk
        by_cases hoc : ((PyVal.dict hk).get "open").truthy = true ∧
            ((PyVal.dict hk).get "close").truthy = true
        · exact ⟨("  - " ++ pyCapitalize d ++ ": " ++
            pyStr ((PyVal.dict hk).get "open") ++ "–" ++
            pyStr ((PyVal.dict hk).get "close")) :: ls,
            by simp [hoursLines, htr, hls, hoc]⟩
        · exact ⟨ls, by simp [hoursLines, htr, hls, hoc]⟩
      · refine ⟨ls, ?_⟩
        simp only [hoursLines, htr, hls]
        simp [htr]

theorem servicesLines_ok (services : PyVal) (h : wfServices services = true) :
    ∃ l, servicesLines services = Except.ok l := by
  by_cases ht : services.truthy = true
  · cases services with
    | list xs =>
        have hall : ∀ v ∈ xs, ∃ s, v = PyVal.str s := by
          simp only [wfServices, List.all_eq_true] at h
          intro v hv
          have h2 := h v hv
          cases v <;> simp_all
        obtain ⟨j, hj⟩ := joinServices_ok xs hall
        exact ⟨["\n• Services: " ++ j], by simp [servicesLines, ht, hj]⟩
    | none => simp [PyVal.truthy] at ht
    | bool b =>
        exact ⟨["\n• Services: " ++ pyStr (PyVal.bool b)],
          by simp [servicesLines, ht]⟩
    | int n =>
        exact ⟨["\n• Services: " ++ pyStr (PyVal.int n)],
          by simp [servicesLines, ht]⟩
    | num q =>
        exact ⟨["\n• Services: " ++ pyStr (PyVal.num q)],
          by simp [servicesLines, ht]⟩
    | nan =>
        exact ⟨["\n• Services: " ++ pyStr PyVal.nan],
          by simp [servicesLines, ht]⟩
    | inf b =>
        exact ⟨["\n• Services: " ++ pyStr (PyVal.inf b)],
          by simp [servicesLines, ht]⟩
    | str s =>
        exact ⟨["\n• Services: " ++ pyStr (PyVal.str s)],
          by simp [servicesLines, ht]⟩
    | dict kvs =>
        exact ⟨["\n• Services: " ++ pyStr (PyVal.dict kvs)],
          by simp [servicesLines, ht]⟩
  · exact ⟨[], by simp [servicesLines, ht]⟩

theorem hoursBlock_ok (hours : PyVal) (h : wfHours hours = true) :
    ∃ l, hoursBlock hours = Except.ok l := by
  by_cases ht : hours.truthy = true
  · cases hours with
    | dict kvs =>
        have hall : ∀ kv ∈ kvs, kv.2.truthy = true →
            ∃ hk, kv.2 = PyVal.dict hk := by
          simp only [wfHours, ht, if_true, List.all_eq_true] at h
          intro kv hkv htr
          obtain ⟨d, v⟩ := kv
          have h2 := h (d, v) hkv
          simp only at htr ⊢
          rw [htr] at h2
          simp only [Bool.not_true, Bool.false_or] at h2
          cases v <;> simp_all
        obtain ⟨ls, hls⟩ := hoursLines_ok kvs hall
        exact ⟨"\n• Working hours:" :: ls, by simp [hoursBlock, ht, hls]⟩
    | none => simp [PyVal.truthy] at ht
    | bool b => simp [wfHours, ht] at h
    | int n => simp [wfHours, ht] at h
    | num q => simp [wfHours, ht] at h
    | nan => simp [wfHours, ht] at h
    | inf b => simp [wfHours, ht] at h
    | str s => simp [wfHours, ht] at h
    | list xs => simp [wfHours, ht] at h
  · exact ⟨[], by simp [hoursBlock, ht]⟩

/-- Under well-formed metadata the fallback summary is the join whose
head is the opening line. -/
theorem fallback_ok (question : String) (meta : PyVal)
    (h : WFMeta meta = true) :
    ∃ tail, fallback_from_metadata question meta =
      Except.ok (pyJoin "\n" (fallbackHead meta :: tail)) := by
  have h2 : wfServices (pyOr (meta.get "services") (PyVal.list [])) = true ∧
      wfHours (pyOr (meta.get "working_hours") (PyVal.dict [])) = true := by
    simpa [WFMeta] using h
  obtain ⟨l1, h1⟩ := servicesLines_ok _ h2.1
  obtain ⟨l2, hb⟩ := hoursBlock_ok _ h2.2
  exact ⟨l1 ++ (l2 ++
      (contactLines (pyOr (meta.get "contact_email") (PyVal.str ""))
        (pyOr (meta.get "contact_phone") (PyVal.str "")) ++
       [fallbackClosing question])),
    by simp [fallback_from_metadata, h1, hb]⟩

theorem fallbackHead_ne_empty (meta : PyVal) : fallbackHead meta ≠ "" := by
  unfold fallbackHead
  exact append_ne_empty_left _ _ (append_ne_empty_left _ _ (by decide))

/-- Under well-formed metadata the fallback summary is a non-empty
string. -/
theorem fallback_ne_empty (question : String) (meta : PyVal)
    (h : WFMeta meta = true) :
    ∃ s, fallback_from_metadata question meta = Except.ok s ∧ s ≠ "" := by
  obtain ⟨tail, ht⟩ := fallback_ok question meta h
  exact ⟨_, ht, pyJoin_cons_ne _ _ _ (fallbackHead_ne_empty meta)⟩

theorem isEmpty_false_of_alistGet (l : List (String × PyVal)) (k : String)
    (v : PyVal) (h : alistGet l k = Option.some v) : l.isEmpty = false := by
  cases l with
  | nil => simp [alistGet] at h
  | cons a t => simp

theorem routePayload_dispatch (kvs ckvs : List (String × PyVal))
    (p name : PyVal) (raw : String) (ctx : List (String × PyVal))
    (hcall : alistGet kvs "call_tool" = Option.some (PyVal.dict ckvs))
    (hname : alistGet ckvs "name" = Option.some name)
    (hparams : alistGet ckvs "params" = Option.some p)
    (hns : name.truthy = true) :
    routePayload (PyVal.dict kvs) raw ctx =
      match dispatchTool name (pyOr p (PyVal.dict [])) (PyVal.dict kvs) ctx with
      | Except.error e => Except.error e
      | Except.ok (actions, sched) =>
          Except.ok
            (⟨pyOr ((PyVal.dict kvs).get "answer") (PyVal.str raw),
              actions⟩, sched) := by
  have hck : ckvs.isEmpty = false := isEmpty_false_of_alistGet _ _ _ hname
  have hc : (PyVal.dict kvs).get "call_tool" = PyVal.dict ckvs := by
    simp [PyVal.get, hcall]
  have hn : (PyVal.dict ckvs).getE "name" = Except.ok name := by
    simp [PyVal.getE, PyVal.get, hname]
  have hpp : (PyVal.dict ckvs).getE "params" = Except.ok p := by
    simp [PyVal.getE, PyVal.get, hparams]
  simp only [routePayload, hc, hn, hpp]
  rw [if_pos (show (PyVal.dict ckvs).truthy = true by
    simp [PyVal.truthy, hck]), if_pos hns]

theorem wrappedBranch_len (tag f : String) (req opt : List String)
    (params : PyVal) (res : List ToolAction × List Sched)
    (h : wrappedBranch tag f req opt params = Except.ok res) :
    res.1.length ≤ 1 := by
  unfold wrappedBranch at h
  split at h
  · exact absurd h (by simp)
  · cases h; simp

theorem dispatch_unknown (name params d : PyVal)
    (ctx : List (String × PyVal)) (h : notRecognized name = true) :
    dispatchTool name params d ctx = Except.ok ([], []) := by
  cases name <;> simp only [dispatchTool]
  case str s =>
    simp only [notRecognized, recognizedNames, List.all_cons, List.all_nil,
      Bool.and_eq_true, Bool.not_eq_true', pyEqStr] at h
    obtain ⟨h1, h2, h3, h4, h5, h6, h7, h8, h9, h10, h11, h12, h13, h14, -⟩
      := h
    unfold dispatchByName
    rw [if_neg (ne_of_beq_false h1), if_neg (ne_of_beq_false h2),
      if_neg (ne_of_beq_false h3), if_neg (ne_of_beq_false h4),
      if_neg (ne_of_beq_false h5), if_neg (ne_of_beq_false h6),
      if_neg (ne_of_beq_false h7), if_neg (ne_of_beq_false h8),
      if_neg (ne_of_beq_false h9), if_neg (ne_of_beq_false h10),
      if_neg (ne_of_beq_false h11), if_neg (ne_of_beq_false h12),
      if_neg (ne_of_beq_false h13), if_neg (ne_of_beq_false h14)]

theorem dispatchByName_len (s : String) (params d : PyVal)
    (ctx : List (String × PyVal)) (res : List ToolAction × List Sched)
    (h : dispatchByName s params d ctx = Except.ok res) :
    res.1.length ≤ 1 := by
  unfold dispatchByName at h
  by_cases h1 : s = "send_whatsapp_message"
  · rw [if_pos h1] at h
    cases params <;> try simp_all
    split at h <;> (cases h; simp)
  rw [if_neg h1] at h
  by_cases h2 : s = "send_whatsapp_confirmation"
  · rw [if_pos h2] at h; cases h
  rw [if_neg h2] at h
  by_cases h3 : s = "send_whatsapp_update"
  · rw [if_pos h3] at h; cases h
  rw [if_neg h3] at h
  by_cases h4 : s = "send_whatsapp_cancellation"
  · rw [if_pos h4] at h; cases h
  rw [if_neg h4] at h
  by_cases h5 : s = "send_whatsapp_followup"
  · rw [if_pos h5] at h; cases h
  rw [if_neg h5] at h
  by_cases h6 : s = "send_email"
  · rw [if_pos h6] at h
    cases params <;> try simp_all
    split at h <;> (cases h; simp)
  rw [if_neg h6] at h
  by_cases h7 : s = "send_email_confirmation"
  · rw [if_pos h7] at h; exact wrappedBranch_len _ _ _ _ _ _ h
  rw [if_neg h7] at h
  by_cases h8 : s = "send_email_update"
  · rw [if_pos h8] at h; exact wrappedBranch_len _ _ _ _ _ _ h
  rw [if_neg h8] at h
  by_cases h9 : s = "send_email_cancellation"
  · rw [if_pos h9] at h; exact wrappedBranch_len _ _ _ _ _ _ h
  rw [if_neg h9] at h
  by_cases h10 : s = "send_email_reminder"
  · rw [if_pos h10] at h; exact wrappedBranch_len _ _ _ _ _ _ h
  rw [if_neg h10] at h
  by_cases h11 : s = "send_email_followup"
  · rw [if_pos h11] at h; exact wrappedBranch_len _ _ _ _ _ _ h
  rw [if_neg h11] at h
  by_cases h12 : s = "create_event"
  · rw [if_pos h12] at h
    cases params <;> (try simp_all)
    exact wrappedBranch_len _ _ _ _ _ _ h
  rw [if_neg h12] at h
  by_cases h13 : s = "update_event"
  · rw [if_pos h13] at h; exact wrappedBranch_len _ _ _ _ _ _ h
  rw [if_neg h13] at h
  by_cases h14 : s = "cancel_event"
  · rw [if_pos h14] at h; exact wrappedBranch_len _ _ _ _ _ _ h
  rw [if_neg h14] at h
  cases h
  simp

theorem dispatch_len (name params d : PyVal) (ctx : List (String × PyVal))
    (res : List ToolAction × List Sched)
    (h : dispatchTool name params d ctx = Except.ok res) :
    res.1.length ≤ 1 := by
  cases name <;> simp only [dispatchTool] at h <;> try (cases h; simp)
  case str s => exact dispatchByName_len s params d ctx res h

theorem routePayload_props (d : PyVal) (raw : String)
    (ctx : List (String × PyVal)) (res : RouterResult) (sch : List Sched)
    (h : routePayload d raw ctx = Except.ok (res, sch)) :
    res.tool_actions.length ≤ 1 ∧
    (res.reply.isNone = true →
      (d.getD "answer" (PyVal.str raw)).isNone = true) := by
  cases d
  case none => simp [routePayload] at h
  case bool b => simp [routePayload] at h
  case int n => simp [routePayload] at h
  case num q => simp [routePayload] at h
  case nan => simp [routePayload] at h
  case inf b => simp [routePayload] at h
  case str s => simp [routePayload] at h
  case list xs => simp [routePayload] at h
  case dict kvs =>
    unfold routePayload at h
    by_cases hct : ((PyVal.dict kvs).get "call_tool").truthy = true
    case neg =>
      rw [if_neg hct] at h
      simp only [Except.ok.injEq, Prod.mk.injEq] at h
      obtain ⟨h1, h2⟩ := h
      subst h1
      subst h2
      exact ⟨by simp, fun hn => hn⟩
    case pos =>
      rw [if_pos hct] at h
      cases hge : ((PyVal.dict kvs).get "call_tool").getE "name" with
      | error e => simp [hge] at h
      | ok nm =>
        simp only [hge] at h
        cases hgp : ((PyVal.dict kvs).get "call_tool").getE "params" with
        | error e => simp [hgp] at h
        | ok p0 =>
          simp only [hgp] at h
          by_cases hnt : nm.truthy = true
          case neg =>
            rw [if_neg hnt] at h
            simp only [Except.ok.injEq, Prod.mk.injEq] at h
            obtain ⟨h1, h2⟩ := h
            subst h1
            subst h2
            exact ⟨by simp, fun hn => hn⟩
          case pos =>
            rw [if_pos hnt] at h
            cases hdt : dispatchTool nm (pyOr p0 (PyVal.dict []))
              (PyVal.dict kvs) ctx with
            | error e => simp [hdt] at h
            | ok pr =>
              obtain ⟨actions, sched0⟩ := pr
              simp only [hdt] at h
              simp only [Except.ok.injEq, Prod.mk.injEq] at h
              obtain ⟨h1, h2⟩ := h
              subst h1
              subst h2
              refine ⟨by simpa using dispatch_len _ _ _ _ _ hdt,
                fun hn => ?_⟩
              rw [pyOr_str_not_none] at hn
              cases hn

/-- The send_email branch skips the schedule and the action entry when
the destination is falsy. -/
theorem dispatchByName_email_skip (pkvs : List (String × PyVal))
    (d : PyVal) (ctx : List (String × PyVal))
    (hto : (pyOr ((PyVal.dict pkvs).get "to")
      (ctxGet ctx "contact_email")).truthy = false) :
    dispatchByName "send_email" (PyVal.dict pkvs) d ctx =
      Except.ok ([], []) := by
  unfold dispatchByName
  rw [if_neg (by decide), if_neg (by decide), if_neg (by decide),
    if_neg (by decide), if_neg (by decide), if_pos rfl]
  simp [hto]

/-- The send_whatsapp_message branch skips the schedule and the action
entry when the destination is falsy. -/
theorem dispatchByName_whatsapp_skip (pkvs : List (String × PyVal))
    (d : PyVal) (ctx : List (String × PyVal))
    (hto : (pyOr ((PyVal.dict pkvs).get "to")
      (ctxGet ctx "contact_phone")).truthy = false) :
    dispatchByName "send_whatsapp_message" (PyVal.dict pkvs) d ctx =
      Except.ok ([], []) := by
  unfold dispatchByName
  rw [if_pos rfl]
  simp [hto]

/-! ## Claims -/

/-- C1 (amended): for every message that contains a rag booking keyword
but no YYYY-MM-DD date and no HH:MM time, generate_answer returns the
fixed plain-text clarification, which contains no call_tool; the
appointment node returns its plain-text clarification too, provided the
message also contains none of its approximate time phrases (with such a
phrase it instead emits a create_event tool call, see the
counterexample). -/
theorem c1_no_datetime_clarification :
    ∀ (msg : String) (bid : Int) (n : Nat) (meta : PyVal) (vs : VSState)
      (llm : String → Except String String) (ctx : PyVal),
      containsAny BOOKING_KEYWORDS (pyLower msg) = true →
      (extract_datetime msg).1 = Option.none →
      (extract_datetime msg).2 = Option.none →
      (∃ r, generate_answer bid msg n meta vs llm = Except.ok r ∧
        r.reply = clarificationText) ∧
      strIn "call_tool" clarificationText = false ∧
      ((extract_appointment_details msg).2 = Option.none →
        appointment_node msg ctx =
          "Sure! To book an appointment, please tell me your preferred " ++
          "date and time.") := by
  intro msg bid n meta vs llm ctx hkw hd ht
  have hwt : user_wants_tool msg = true := by simp [user_wants_tool, hkw]
  refine ⟨?_, by decide, ?_⟩
  · refine ⟨⟨clarificationText,
      (match query_documents vs bid msg n with
       | Except.ok l => l
       | Except.error _ => []).length, pyOr meta (PyVal.dict [])⟩, ?_, rfl⟩
    simp only [generate_answer, hwt, hd, ht]
    simp
  · intro hnt
    have hab : containsAny APPT_BOOKING_WORDS (pyLower msg) = true :=
      booking_implies_appt _ hkw
    have h1 : (extract_appointment_details msg).1 = true := by
      simpa [extract_appointment_details] using hab
    simp only [appointment_node]
    rw [h1, hnt]
    simp

/-- C1 counterexample: "book tomorrow" contains the booking keyword
"book" and neither a date nor a time, yet appointment_node answers with
a structured create_event payload (call_tool appears in the reply), not
with a plain-text clarification. -/
theorem c1_counterexample :
    containsAny BOOKING_KEYWORDS (pyLower "book tomorrow") = true ∧
    extract_datetime "book tomorrow" = (Option.none, Option.none) ∧
    strIn "call_tool" (appointment_node "book tomorrow" PyVal.none) = true := by
  exact ⟨rfl, rfl, rfl⟩

/-- C1 witness: the amended theorem applied to the concrete booking
message "can i book a visit". -/
theorem c1_witness :
    containsAny BOOKING_KEYWORDS (pyLower "can i book a visit") = true ∧
    (extract_datetime "can i book a visit").1 = Option.none ∧
    (extract_datetime "can i book a visit").2 = Option.none ∧
    ((∃ r, generate_answer 7 "can i book a visit" 5 (PyVal.dict [])
        sampleVS llmDown = Except.ok r ∧ r.reply = clarificationText) ∧
     strIn "call_tool" clarificationText = false ∧
     ((extract_appointment_details "can i book a visit").2 = Option.none →
       appointment_node "can i book a visit" PyVal.none =
         "Sure! To book an appointment, please tell me your preferred " ++
         "date and time.")) :=
  ⟨rfl, rfl, rfl,
   c1_no_datetime_clarification "can i book a visit" 7 5 (PyVal.dict [])
     sampleVS llmDown PyVal.none rfl rfl rfl⟩

/-- C2 (code bug): on a booking message carrying a date and a time,
generate_answer does emit exactly one create_event tool call whose
title embeds the date and time and whose description is the user
message — but the router then raises TypeError when it constructs
create_event(**params), because the generator leaves end_dt out (its
comment expects calendar_mcp to default it, yet create_event has no
default for end_dt), so no calendar action entry is ever recorded. -/
theorem c2_autobook_end_dt_bug :
    generate_answer 1 "Please book an appointment on 2025-01-02 at 10:00" 5
      (PyVal.dict []) sampleVS llmDown =
      Except.ok ⟨jsonDumps (autobookPayload
        "Please book an appointment on 2025-01-02 at 10:00"
        "2025-01-02" "10:00" (PyVal.dict [])), 0, PyVal.dict []⟩ ∧
    (autobookParams "Please book an appointment on 2025-01-02 at 10:00"
      "2025-01-02" "10:00" (PyVal.dict [])).get "title" =
      PyVal.str "Appointment on 2025-01-02 at 10:00" ∧
    (autobookParams "Please book an appointment on 2025-01-02 at 10:00"
      "2025-01-02" "10:00" (PyVal.dict [])).get "description" =
      PyVal.str "Please book an appointment on 2025-01-02 at 10:00" ∧
    ((autobookPayload "Please book an appointment on 2025-01-02 at 10:00"
      "2025-01-02" "10:00" (PyVal.dict [])).get "call_tool").get "name" =
      PyVal.str "create_event" ∧
    tool_router (jsonDumps (autobookPayload
      "Please book an appointment on 2025-01-02 at 10:00"
      "2025-01-02" "10:00" (PyVal.dict []))) [] =
      Except.error (PyErr.typeError
        "create_event() missing required positional arguments") := by
  exact ⟨rfl, rfl, rfl, rfl, rfl⟩

/-- C4: the round-trip payload sending an email to x@y.com yields, for
every business context, the reply "A" and exactly one action entry
tagged tool "email" (and exactly one scheduled send_email coroutine). -/
theorem c4_email_roundtrip :
    ∀ ctx : List (String × PyVal),
      tool_router ("\x7b\"answer\": \"A\", \"call_tool\": \x7b\"name\": " ++
        "\"send_email\", \"params\": \x7b\"to\": \"x@y.com\", \"subject\": " ++
        "\"s\", \"body\": \"b\"\x7d\x7d\x7d") ctx =
      Except.ok (⟨PyVal.str "A",
        [⟨"email", "send_email", Option.some (PyVal.str "x@y.com")⟩]⟩,
       [Sched.emailSend (PyVal.str "x@y.com") (PyVal.str "s")
         (PyVal.str "b")]) := by
  intro ctx
  rfl

/-- C3 counterexample: a send_email_confirmation payload with empty
params lacks its required to/title/start/end arguments; instead of
silently skipping the action and returning the answer "A", tool_router
raises TypeError while binding the coroutine arguments. -/
theorem c3_counterexample :
    tool_router ("\x7b\"answer\": \"A\", \"call_tool\": \x7b\"name\": " ++
      "\"send_email_confirmation\", \"params\": \x7b\x7d\x7d\x7d") [] =
      Except.error (PyErr.typeError
        "send_email_confirmation() missing required positional arguments") :=
  rfl

/-- C5 counterexample: an unknown tool name with an explicitly empty
answer field: the router does not return the answer field (the empty
string) but falls back to the raw input text. -/
theorem c5_counterexample :
    tool_router ("\x7b\"answer\": \"\", \"call_tool\": \x7b\"name\": " ++
      "\"bogus_tool\", \"params\": \x7b\x7d\x7d\x7d") [] =
      Except.ok (⟨PyVal.str ("\x7b\"answer\": \"\", \"call_tool\": " ++
        "\x7b\"name\": \"bogus_tool\", \"params\": \x7b\x7d\x7d\x7d"), []⟩,
       []) ∧
    ("\x7b\"answer\": \"\", \"call_tool\": \x7b\"name\": " ++
      "\"bogus_tool\", \"params\": \x7b\x7d\x7d\x7d" : String) ≠ "" := by
  exact ⟨rfl, by decide⟩

/-- C9 counterexample: on the non-empty input whose payload maps answer
to null and carries no tool call, tool_router returns None as the
reply. -/
theorem c9_counterexample :
    tool_router "\x7b\"answer\": null\x7d" [] =
      Except.ok (⟨PyVal.none, []⟩, []) ∧
    ("\x7b\"answer\": null\x7d" : String) ≠ "" := by
  exact ⟨rfl, by decide⟩

/-- C3 (amended): for the two actions with destination-fallback logic,
send_email and send_whatsapp_message, a payload whose params provide no
destination while the business context has no fallback contact makes
the router skip the send (nothing is scheduled), append no action
entry, and still return the reply (the answer field, or the raw text
when the answer is falsy). For the wrapper actions a missing required
parameter instead raises TypeError out of the router, see the
counterexample. -/
theorem c3_missing_destination_skip :
    (∀ (kvs ckvs pkvs : List (String × PyVal)) (p : PyVal) (raw : String)
       (ctx : List (String × PyVal)),
       alistGet kvs "call_tool" = Option.some (PyVal.dict ckvs) →
       alistGet ckvs "name" = Option.some (PyVal.str "send_email") →
       alistGet ckvs "params" = Option.some p →
       pyOr p (PyVal.dict []) = PyVal.dict pkvs →
       (pyOr ((PyVal.dict pkvs).get "to")
         (ctxGet ctx "contact_email")).truthy = false →
       routePayload (PyVal.dict kvs) raw ctx =
         Except.ok
           (⟨pyOr ((PyVal.dict kvs).get "answer") (PyVal.str raw), []⟩,
            [])) ∧
    (∀ (kvs ckvs pkvs : List (String × PyVal)) (p : PyVal) (raw : String)
       (ctx : List (String × PyVal)),
       alistGet kvs "call_tool" = Option.some (PyVal.dict ckvs) →
       alistGet ckvs "name" =
         Option.some (PyVal.str "send_whatsapp_message") →
       alistGet ckvs "params" = Option.some p →
       pyOr p (PyVal.dict []) = PyVal.dict pkvs →
       (pyOr ((PyVal.dict pkvs).get "to")
         (ctxGet ctx "contact_phone")).truthy = false →
       routePayload (PyVal.dict kvs) raw ctx =
         Except.ok
           (⟨pyOr ((PyVal.dict kvs).get "answer") (PyVal.str raw), []⟩,
            [])) := by
  constructor
  · intro kvs ckvs pkvs p raw ctx hcall hname hparams hp hto
    rw [routePayload_dispatch kvs ckvs p (PyVal.str "send_email") raw ctx
      hcall hname hparams (by decide), hp]
    rw [show dispatchTool (PyVal.str "send_email") (PyVal.dict pkvs)
        (PyVal.dict kvs) ctx = Except.ok ([], []) from
      dispatchByName_email_skip pkvs (PyVal.dict kvs) ctx hto]
  · intro kvs ckvs pkvs p raw ctx hcall hname hparams hp hto
    rw [routePayload_dispatch kvs ckvs p
      (PyVal.str "send_whatsapp_message") raw ctx hcall hname hparams
      (by decide), hp]
    rw [show dispatchTool (PyVal.str "send_whatsapp_message")
        (PyVal.dict pkvs) (PyVal.dict kvs) ctx = Except.ok ([], []) from
      dispatchByName_whatsapp_skip pkvs (PyVal.dict kvs) ctx hto]

/-- C3 witness: the amended theorem applied to a send_email payload
with empty params and a business context with no contact_email. -/
theorem c3_witness :
    alistGet [("answer", PyVal.str "A"),
      ("call_tool", PyVal.dict [("name", PyVal.str "send_email"),
        ("params", PyVal.dict [])])] "call_tool" =
      Option.some (PyVal.dict [("name", PyVal.str "send_email"),
        ("params", PyVal.dict [])]) ∧
    routePayload (PyVal.dict [("answer", PyVal.str "A"),
      ("call_tool", PyVal.dict [("name", PyVal.str "send_email"),
        ("params", PyVal.dict [])])]) "raw" [] =
      Except.ok (⟨pyOr ((PyVal.dict [("answer", PyVal.str "A"),
        ("call_tool", PyVal.dict [("name", PyVal.str "send_email"),
          ("params", PyVal.dict [])])]).get "answer") (PyVal.str "raw"),
        []⟩, []) :=
  ⟨rfl,
   c3_missing_destination_skip.1
     [("answer", PyVal.str "A"),
      ("call_tool", PyVal.dict [("name", PyVal.str "send_email"),
        ("params", PyVal.dict [])])]
     [("name", PyVal.str "send_email"), ("params", PyVal.dict [])]
     [] (PyVal.dict []) "raw" [] rfl rfl rfl rfl rfl⟩

/-- C5 (amended): an unrecognized tool name dispatches nothing and the
router returns the answer field when it is truthy, otherwise the raw
input text, with an empty action list; an input that fails json parsing
is returned unchanged with an empty action list (and, the router being
a pure function, identically on any repeated call). -/
theorem c5_unknown_tool_fallback :
    (∀ (kvs ckvs : List (String × PyVal)) (p name : PyVal) (raw : String)
       (ctx : List (String × PyVal)),
       alistGet kvs "call_tool" = Option.some (PyVal.dict ckvs) →
       alistGet ckvs "name" = Option.some name →
       alistGet ckvs "params" = Option.some p →
       name.truthy = true → notRecognized name = true →
       routePayload (PyVal.dict kvs) raw ctx =
         Except.ok
           (⟨pyOr ((PyVal.dict kvs).get "answer") (PyVal.str raw), []⟩,
            [])) ∧
    (∀ (s : String) (ctx : List (String × PyVal)) (e : String),
       jsonLoads s = Except.error e →
       tool_router s ctx = Except.ok (⟨PyVal.str s, []⟩, [])) := by
  constructor
  · intro kvs ckvs p name raw ctx hcall hname hparams hns hnr
    rw [routePayload_dispatch kvs ckvs p name raw ctx hcall hname hparams
      hns]
    rw [dispatch_unknown name (pyOr p (PyVal.dict [])) (PyVal.dict kvs)
      ctx hnr]
  · intro s ctx e hj
    simp [tool_router, hj]

/-- C5 witness: the amended theorem applied to an unknown tool name
payload and to a non-json input. -/
theorem c5_witness :
    notRecognized (PyVal.str "make_coffee") = true ∧
    routePayload (PyVal.dict [("answer", PyVal.str "A"),
      ("call_tool", PyVal.dict [("name", PyVal.str "make_coffee"),
        ("params", PyVal.dict [])])]) "raw" [] =
      Except.ok (⟨pyOr ((PyVal.dict [("answer", PyVal.str "A"),
        ("call_tool", PyVal.dict [("name", PyVal.str "make_coffee"),
          ("params", PyVal.dict [])])]).get "answer") (PyVal.str "raw"),
        []⟩, []) ∧
    jsonLoads "plain text" = Except.error "unexpected character" ∧
    tool_router "plain text" [] =
      Except.ok (⟨PyVal.str "plain text", []⟩, []) :=
  ⟨rfl,
   c5_unknown_tool_fallback.1
     [("answer", PyVal.str "A"),
      ("call_tool", PyVal.dict [("name", PyVal.str "make_coffee"),
        ("params", PyVal.dict [])])]
     [("name", PyVal.str "make_coffee"), ("params", PyVal.dict [])]
     (PyVal.dict []) (PyVal.str "make_coffee") "raw" [] rfl rfl rfl rfl
     rfl,
   rfl,
   c5_unknown_tool_fallback.2 "plain text" [] "unexpected character" rfl⟩

/-- C9 (amended): whenever tool_router returns, the result carries a
reply and at most one action entry; the reply can be None only when the
input parses to a json object whose answer field is an explicit null
(in particular, the reply is never None for a non-empty input unless
that input is such a payload). -/
theorem c9_router_invariant :
    ∀ (s : String) (ctx : List (String × PyVal)) (res : RouterResult)
      (sch : List Sched),
      tool_router s ctx = Except.ok (res, sch) →
      res.tool_actions.length ≤ 1 ∧
      (res.reply.isNone = true → answerNull s = true) := by
  intro s ctx res sch h
  unfold tool_router at h
  cases hj : jsonLoads s with
  | error e =>
      simp only [hj] at h
      simp only [Except.ok.injEq, Prod.mk.injEq] at h
      obtain ⟨h1, h2⟩ := h
      subst h1
      subst h2
      exact ⟨by simp, fun hn => by simp [PyVal.isNone] at hn⟩
  | ok d =>
      simp only [hj] at h
      have hp := routePayload_props d s ctx res sch h
      refine ⟨hp.1, fun hn => ?_⟩
      have h2 := hp.2 hn
      simp [answerNull, hj, h2]

/-- C9 witness: the invariant applied to the plain-text input
"hello". -/
theorem c9_witness :
    tool_router "hello" [] =
      Except.ok (⟨PyVal.str "hello", []⟩, []) ∧
    ((⟨PyVal.str "hello", []⟩ : RouterResult).tool_actions.length ≤ 1 ∧
     ((PyVal.str "hello").isNone = true → answerNull "hello" = true)) :=
  ⟨rfl, c9_router_invariant "hello" [] ⟨PyVal.str "hello", []⟩ [] rfl⟩

/-- C8 (code bug): send_whatsapp_message raises AttributeError for
every configuration and input, because config.py declares no
ULTRAMSG_TOKEN field (nor ULTRAMSG_INSTANCE_ID / ULTRAMSG_API_BASE)
while whatsapp_mcp.py reads them from the settings object — so the
documented disabled path (success=false, "WhatsApp MCP disabled or
misconfigured") is unreachable. The other two senders behave as the
claim says on the default (disabled) configuration. -/
theorem c8_whatsapp_settings_bug :
    (∀ (settings : Config)
       (http : PyVal → Except String (Nat × String × PyVal))
       (toAddr message : String),
       send_whatsapp_message settings http toAddr message =
         Except.error (PyErr.attributeError "ULTRAMSG_TOKEN")) ∧
    (∀ (smtp : String → Except String Unit) (uid title : String)
       (start_dt end_dt : DT) (description : String)
       (attendees : List String),
       create_event {} smtp uid title start_dt end_dt description
         attendees =
       Except.ok (⟨false, "Calendar MCP disabled", PyVal.dict []⟩, [])) ∧
    (∀ (smtp : String → Except String Unit) (subject body : String),
       send_email {} smtp "x@y.com" subject body =
         Except.ok (⟨false, "Email MCP disabled or misconfigured",
           PyVal.dict [("enabled", PyVal.bool false)]⟩, [])) := by
  refine ⟨fun settings http toAddr message => rfl,
    fun smtp uid title start_dt end_dt description attendees => rfl,
    fun smtp subject body => rfl⟩

/-- C10: whenever the chat endpoint finds the business, it returns a
ChatResponse with an empty tool_actions list and no intent, and the
generator reply is passed through verbatim (no tool_router on this
path): any non-empty generator reply, a structured tool-call json
string included, becomes the response reply unchanged. -/
theorem c10_chat_no_tools :
    ∀ (req : ChatRequest) (db : List Business) (settings : Config)
      (smtp : String → Except String Unit)
      (http : PyVal → Except String (Nat × String × PyVal)) (vs : VSState)
      (llm : String → Except String String) (b : Business),
      db.find? (fun b2 => b2.id == req.business_id) = Option.some b →
      ∃ resp out,
        chat_endpoint req db settings smtp http vs llm =
          Except.ok (resp, out) ∧
        resp.tool_actions = [] ∧ resp.intent = Option.none ∧
        (∀ r, generate_answer b.id req.user_message 5 (business_context b)
            vs llm = Except.ok r → r.reply ≠ "" → resp.reply = r.reply) := by
  intro req db settings smtp http vs llm b hfind
  refine ⟨⟨(match generate_answer b.id req.user_message 5
      (business_context b) vs llm with
    | Except.ok r2 => if r2.reply ≠ "" then r2.reply else chatFallbackReply
    | Except.error _ => chatErrorReply), [],
    (if optTruthy req.conversation_id then req.conversation_id.getD ""
     else "conv_" ++ toString b.id), Option.none⟩,
    (if ¬ optTruthy req.conversation_id then
      notify_new_lead settings smtp http b req.user_name req.user_message
     else []), ?_, rfl, rfl, ?_⟩
  · unfold chat_endpoint
    rw [hfind]
  · intro r hr hne
    show (match generate_answer b.id req.user_message 5
        (business_context b) vs llm with
      | Except.ok r2 => if r2.reply ≠ "" then r2.reply else chatFallbackReply
      | Except.error _ => chatErrorReply) = r.reply
    rw [hr]
    simp [hne]

/-- C10 witness: the theorem applied to a concrete request against a
one-row business table. -/
theorem c10_witness :
    ([sampleBusiness].find? (fun b2 => b2.id ==
      (⟨7, "Ann", "hello", Option.some "c1"⟩ : ChatRequest).business_id) =
      Option.some sampleBusiness) ∧
    (∃ resp out,
      chat_endpoint ⟨7, "Ann", "hello", Option.some "c1"⟩ [sampleBusiness]
        {} smtpOk httpDown sampleVS llmDown = Except.ok (resp, out) ∧
      resp.tool_actions = [] ∧ resp.intent = Option.none ∧
      (∀ r, generate_answer sampleBusiness.id "hello"
          5 (business_context sampleBusiness) sampleVS llmDown =
          Except.ok r → r.reply ≠ "" → resp.reply = r.reply)) :=
  ⟨rfl,
   c10_chat_no_tools ⟨7, "Ann", "hello", Option.some "c1"⟩ [sampleBusiness]
     {} smtpOk httpDown sampleVS llmDown sampleBusiness rfl⟩

/-- C6: query_documents always returns a list (its try/except structure
leaves no uncaught raise): a chroma backend error, an unreadable or
missing simple-store file, and a failed query embedding each yield the
empty list, and generate_answer then reports documents_used = 0. -/
theorem c6_retrieval_never_raises :
    (∀ (vs : VSState) (bid : Int) (q : String) (n : Nat),
       ∃ l, query_documents vs bid q n = Except.ok l) ∧
    (∀ (vs : VSState) (bid : Int) (q : String) (n : Nat) (e : String),
       vs.chromaMode = true → vs.chromaResult = Except.error e →
       query_documents vs bid q n = Except.ok []) ∧
    (∀ (vs : VSState) (bid : Int) (q : String) (n : Nat) (e : String),
       vs.chromaMode = false → vs.store = Except.error e →
       query_documents vs bid q n = Except.ok []) ∧
    (∀ (vs : VSState) (bid : Int) (q : String) (n : Nat)
       (entries : List SEntry),
       vs.chromaMode = false → vs.store = Except.ok entries →
       entries.isEmpty = false →
       (entries.filterMap truthyEmbedding).isEmpty = false →
       vs.hasEmbedModel = true → vs.queryEmbed = Option.none →
       query_documents vs bid q n = Except.ok []) ∧
    (∀ (vs : VSState) (bid : Int) (msg : String) (n : Nat) (meta : PyVal)
       (llm : String → Except String String) (r : RagResult),
       query_documents vs bid msg n = Except.ok [] →
       generate_answer bid msg n meta vs llm = Except.ok r →
       r.documents_used = 0) := by
  refine ⟨?_, ?_, ?_, ?_, ?_⟩
  · intro vs bid q n
    by_cases h : vs.chromaMode = true
    · exact ⟨queryChroma vs, by simp [query_documents, h]⟩
    · exact ⟨querySimple vs q n, by simp [query_documents, h]⟩
  · intro vs bid q n e hm hc
    simp [query_documents, hm, queryChroma, hc]
  · intro vs bid q n e hm hs
    simp [query_documents, hm, querySimple, loadSimpleStore, hs]
  · intro vs bid q n entries hm hs hne hemb hmodel hq
    simp [query_documents, hm, querySimple, loadSimpleStore, hs, hne,
      hemb, hmodel, hq]
  · intro vs bid msg n meta llm r hq hg
    simp only [generate_answer, hq] at hg
    by_cases h1 : (user_wants_tool msg && (extract_datetime msg).1.isSome &&
        (extract_datetime msg).2.isSome) = true
    · rw [if_pos h1] at hg
      simp only [Except.ok.injEq] at hg
      subst hg
      rfl
    · rw [if_neg h1] at hg
      by_cases h2 : (user_wants_tool msg &&
          ((extract_datetime msg).1.isNone ||
           (extract_datetime msg).2.isNone)) = true
      · rw [if_pos h2] at hg
        simp only [Except.ok.injEq] at hg
        subst hg
        rfl
      · rw [if_neg h2] at hg
        split at hg
        · split at hg
          · simp only [Except.ok.injEq] at hg
            subst hg
            rfl
          · exact Except.noConfusion hg
        · simp only [Except.ok.injEq] at hg
          subst hg
          rfl

/-- The dump of a dict payload is never the empty string. -/
theorem jsonDumps_dict_ne (kvs : List (String × PyVal)) :
    jsonDumps (PyVal.dict kvs) ≠ "" := by
  unfold jsonDumps
  exact append_ne_empty_left _ _ (append_ne_empty_left _ _ (by decide))

/-- C7: generate_answer never returns an empty reply — each branch
produces a non-empty string, and when the generation backend raises or
returns empty output the reply is exactly the metadata fallback
summary, itself non-empty for every well-formed metadata map (the empty
map included: see the witness). -/
theorem c7_reply_never_empty :
    (∀ (q : String) (meta : PyVal), WFMeta meta = true →
       ∃ s, fallback_from_metadata q meta = Except.ok s ∧ s ≠ "") ∧
    (∀ (bid : Int) (msg : String) (n : Nat) (meta : PyVal) (vs : VSState)
       (llm : String → Except String String),
       WFMeta (pyOr meta (PyVal.dict [])) = true →
       ∃ r, generate_answer bid msg n meta vs llm = Except.ok r ∧
         r.reply ≠ "") ∧
    (∀ (bid : Int) (msg : String) (n : Nat) (meta : PyVal) (vs : VSState)
       (llm : String → Except String String),
       user_wants_tool msg = false →
       (∀ p, (match llm p with
         | Except.ok t => pyStrip t
         | Except.error _ => "") = "") →
       WFMeta (pyOr meta (PyVal.dict [])) = true →
       ∃ r s, generate_answer bid msg n meta vs llm = Except.ok r ∧
         fallback_from_metadata msg (pyOr meta (PyVal.dict [])) =
           Except.ok s ∧
         r.reply = s) := by
  refine ⟨?_, ?_, ?_⟩
  · intro q meta hWF
    exact fallback_ne_empty q meta hWF
  · intro bid msg n meta vs llm hWF
    simp only [generate_answer]
    by_cases h1 : (user_wants_tool msg && (extract_datetime msg).1.isSome &&
        (extract_datetime msg).2.isSome) = true
    · rw [if_pos h1]
      exact ⟨_, rfl, jsonDumps_dict_ne _⟩
    · rw [if_neg h1]
      by_cases h2 : (user_wants_tool msg &&
          ((extract_datetime msg).1.isNone ||
           (extract_datetime msg).2.isNone)) = true
      · rw [if_pos h2]
        exact ⟨_, rfl, (show clarificationText ≠ "" by decide)⟩
      · rw [if_neg h2]
        split
        · obtain ⟨s, hs, hne⟩ := fallback_ne_empty msg _ hWF
          rw [hs]
          exact ⟨_, rfl, hne⟩
        · next hne0 => exact ⟨_, rfl, hne0⟩
  · intro bid msg n meta vs llm hw hfail hWF
    simp only [generate_answer]
    rw [if_neg (by simp [hw]), if_neg (by simp [hw])]
    rw [hfail]
    obtain ⟨s, hs, hne⟩ := fallback_ne_empty msg _ hWF
    rw [if_pos rfl, hs]
    exact ⟨_, s, rfl, rfl, rfl⟩

/-- C6 witness: the parts of the theorem applied to concrete store
states and a concrete chat request. -/
theorem c6_witness :
    query_documents ⟨true, Except.error "index down", false, Option.none,
      Except.ok [], fun _ _ => 0⟩ 1 "q" 5 = Except.ok [] ∧
    query_documents ⟨false, Except.error "x", false, Option.none,
      Except.error "unreadable", fun _ _ => 0⟩ 1 "q" 5 = Except.ok [] ∧
    query_documents ⟨false, Except.error "x", true, Option.none,
      Except.ok [⟨"d1", "hello world", PyVal.dict [], Option.some [1]⟩],
      fun _ _ => 0⟩ 1 "q" 5 = Except.ok [] ∧
    (∃ r, generate_answer 1 "hi" 5 (PyVal.dict []) sampleVS llmDown =
      Except.ok r ∧ r.documents_used = 0) :=
  ⟨c6_retrieval_never_raises.2.1 ⟨true, Except.error "index down", false,
      Option.none, Except.ok [], fun _ _ => 0⟩ 1 "q" 5 "index down" rfl
      rfl,
   c6_retrieval_never_raises.2.2.1 ⟨false, Except.error "x", false,
      Option.none, Except.error "unreadable", fun _ _ => 0⟩ 1 "q" 5
      "unreadable" rfl rfl,
   c6_retrieval_never_raises.2.2.2.1 ⟨false, Except.error "x", true,
      Option.none,
      Except.ok [⟨"d1", "hello world", PyVal.dict [], Option.some [1]⟩],
      fun _ _ => 0⟩ 1 "q" 5
      [⟨"d1", "hello world", PyVal.dict [], Option.some [1]⟩] rfl rfl rfl
      rfl rfl rfl,
   ⟨_, rfl, c6_retrieval_never_raises.2.2.2.2 sampleVS 1 "hi" 5
      (PyVal.dict []) llmDown _ rfl rfl⟩⟩

/-- C7 witness: the parts of the theorem applied to the empty metadata
map and a concrete no-keyword message with a failing LLM backend. -/
theorem c7_witness :
    WFMeta (PyVal.dict []) = true ∧
    (∃ s, fallback_from_metadata "hi" (PyVal.dict []) = Except.ok s ∧
      s ≠ "") ∧
    (∃ r, generate_answer 1 "hello" 5 (PyVal.dict []) sampleVS llmDown =
      Except.ok r ∧ r.reply ≠ "") ∧
    user_wants_tool "hello" = false ∧
    (∃ r s, generate_answer 1 "hello" 5 (PyVal.dict []) sampleVS llmDown =
      Except.ok r ∧
      fallback_from_metadata "hello" (pyOr (PyVal.dict [])
        (PyVal.dict [])) = Except.ok s ∧ r.reply = s) :=
  ⟨rfl,
   c7_reply_never_empty.1 "hi" (PyVal.dict []) rfl,
   c7_reply_never_empty.2.1 1 "hello" 5 (PyVal.dict []) sampleVS llmDown
     rfl,
   rfl,
   c7_reply_never_empty.2.2 1 "hello" 5 (PyVal.dict []) sampleVS llmDown
     rfl (fun _ => rfl) rfl⟩


end BizGenie
